import Mathlib

/-!
Verification development for the `ringer` proxy-subscription converter.

The Rust sources are shallowly embedded: pure functions become Lean
functions, machine integers become `Nat` (with explicit bounds or `% 2^w`
where overflow is observable), fallible code returns `Option`/`Except`,
and code that can panic returns an explicit `PResult` with a `panicked`
constructor.  External crates (base64, percent-encoding, UTF-8 handling,
url query parsing) are modelled by executable Lean functions at the same
byte-level semantics the code relies on.
-/

namespace Ringer

/-! ## Basic character/string helpers (models of `str`/`char` std behaviour) -/

/-- ASCII decimal digit test, as used by Rust's `str::parse` for unsigned integers. -/
def isAsciiDigit (c : Char) : Bool := '0' ≤ c && c ≤ '9'

/-- Value of a list of decimal digits, most significant first. -/
def digitsToNat (cs : List Char) : Nat :=
  cs.foldl (fun a c => a * 10 + (c.toNat - '0'.toNat)) 0

/-- Model of Rust `str::parse::<uN>()`: an optional leading `+`, then one or
more ASCII digits, failing on empty input, on any other character and on
overflow past `maxVal`. -/
def parseUnsigned (maxVal : Nat) (s : List Char) : Option Nat :=
  let digits := match s with
    | '+' :: rest => rest
    | other => other
  if digits.isEmpty then none
  else if digits.all isAsciiDigit then
    let v := digitsToNat digits
    if v ≤ maxVal then some v else none
  else none

def u8Max : Nat := 255
def u16Max : Nat := 65535
def u32Max : Nat := 4294967295
def u64Max : Nat := 18446744073709551615

/-- `endsWithL s pat` is Rust `s.ends_with(pat)` on character lists. -/
def endsWithL (s pat : List Char) : Bool :=
  pat.reverse.isPrefixOf s.reverse

/-- Repeatedly drop the (reversed) pattern from the front of a reversed
string; fuel-driven helper for `trimEndMatchesL`. -/
def dropRepAux : Nat → List Char → List Char → List Char
  | 0, _, sR => sR
  | fuel + 1, patR, sR =>
    if !patR.isEmpty && patR.isPrefixOf sR then
      dropRepAux fuel patR (sR.drop patR.length)
    else sR

/-- Model of Rust `str::trim_end_matches(pat)`: repeatedly removes a trailing
occurrence of `pat`. -/
def trimEndMatchesL (pat s : List Char) : List Char :=
  (dropRepAux s.length pat.reverse s.reverse).reverse

/-- Rust `str::contains(needle)` (substring containment). -/
def containsSub (hay needle : List Char) : Bool :=
  hay.tails.any (needle.isPrefixOf ·)

/-- Split a character list at every occurrence of `sep`, keeping empty
pieces, exactly like Rust `str::split(sep: char)`. -/
def splitCharL (sep : Char) : List Char → List (List Char)
  | [] => [[]]
  | c :: cs =>
    let r := splitCharL sep cs
    if c = sep then [] :: r
    else
      match r with
      | h :: t => (c :: h) :: t
      | [] => [[c]]

/-- Fuel-driven worker for `splitSubstringL`; consumes at least one input
character per step, so fuel `s.length + 1` always suffices. -/
def splitSubAux : Nat → List Char → List Char → List Char → List (List Char)
  | 0, _, acc, s => [acc.reverse ++ s]
  | fuel + 1, pat, acc, s =>
    if !pat.isEmpty && pat.isPrefixOf s then
      acc.reverse :: splitSubAux fuel pat [] (s.drop pat.length)
    else
      match s with
      | [] => [acc.reverse]
      | c :: cs => splitSubAux fuel pat (c :: acc) cs

/-- Rust `str::split(pat: &str)`: non-overlapping, left to right, keeping
empty pieces. -/
def splitSubstringL (pat s : List Char) : List (List Char) :=
  splitSubAux (s.length + 1) pat [] s

end Ringer

namespace Ringer

/-! ## Hysteria node model (`src/node/hysteria.rs`) -/

namespace Hysteria

/-- `enum ServerPort` of `src/node/hysteria.rs`. -/
inductive ServerPort where
  | single (port : Nat)
  | range (startPort endPort : Nat)
deriving DecidableEq, Repr

namespace ServerPort

def is_single : ServerPort → Bool
  | .single _ => true
  | .range _ _ => false

def is_range : ServerPort → Bool
  | .single _ => false
  | .range _ _ => true

def get_start_port : ServerPort → Nat
  | .single port => port
  | .range startPort _ => startPort

end ServerPort

/-- `enum Protocol` of `src/node/hysteria.rs`. -/
inductive Protocol where
  | udp
  | wechatVideo
  | fakeTcp
deriving DecidableEq, Repr

/-- `Display for Protocol`. -/
def Protocol.toText : Protocol → String
  | .udp => "udp"
  | .wechatVideo => "wechat-video"
  | .fakeTcp => "faketcp"

/-- `enum Speed` of `src/node/hysteria.rs`: free text or an integer Mbps
value (`u32` in the source). -/
inductive Speed where
  | text (s : String)
  | mbps (n : Nat)
deriving DecidableEq, Repr

/-- One suffix family of `Speed::to_mbps`: the first suffix of `pats` that
matches ends the scan, and the remaining text is parsed (`parse::<u64>` for
`conv` families that divide, `parse::<u32>` for the rest — the caller passes
the right bound and conversion). `none` from the outer `Option` means "no
suffix in this family matched"; `some r` means the family matched and the
whole function returns `r`. -/
def speedFamily (t : List Char) (pats : List (List Char)) (bound : Nat)
    (conv : Nat → Nat) : Option (Option Nat) :=
  match pats.find? (fun p => endsWithL t p) with
  | some p => some ((parseUnsigned bound (trimEndMatchesL p t)).map conv)
  | none => none

/-- `Speed::to_mbps` of `src/node/hysteria.rs`.  The five suffix families are
tried in source order (`bps`, `kbps`, `mbps`, `gbps`, `tbps`); within a
family the longest suffix is tried first.  `as u32` casts and `u32`
multiplications are modelled with `% 2^32` (release-mode wrapping). -/
def Speed.to_mbps : Speed → Option Nat
  | .text s =>
    let t := s.data
    match speedFamily t [" bps".data, "bps".data, " b".data, "b".data]
        u64Max (fun n => n / 1024 / 1024 % (u32Max + 1)) with
    | some r => r
    | none =>
    match speedFamily t
        [" kbps".data, "kbps".data, " kb".data, "kb".data, " k".data, "k".data]
        u64Max (fun n => n / 1024 % (u32Max + 1)) with
    | some r => r
    | none =>
    match speedFamily t
        [" mbps".data, "mbps".data, " mb".data, "mb".data, " m".data, "m".data]
        u32Max (fun n => n) with
    | some r => r
    | none =>
    match speedFamily t
        [" gbps".data, "gbps".data, " gb".data, "gb".data, " g".data, "g".data]
        u32Max (fun n => n * 1024 % (u32Max + 1)) with
    | some r => r
    | none =>
    match speedFamily t
        [" tbps".data, "tbps".data, " tb".data, "tb".data, " t".data, "t".data]
        u32Max (fun n => n * 1024 * 1024 % (u32Max + 1)) with
    | some r => r
    | none => none
  | .mbps n => some n

/-- `Speed::to_text` of `src/node/hysteria.rs`. -/
def Speed.to_text : Speed → String
  | .text s => s
  | .mbps n => s!"{n} mbps"

/-- `struct TlsOptions` of `src/node/common.rs`. -/
structure TlsOptions where
  sni : Option String
  insecure : Option Bool
  alpn : Option (List String)
deriving DecidableEq, Repr

/-- `struct HysteriaNode` of `src/node/hysteria.rs`. -/
structure HysteriaNode where
  remarks : Option String
  server : String
  port : ServerPort
  protocol : Option Protocol
  up : Speed
  down : Speed
  obfs : Option String
  auth : Option String
  tls : TlsOptions
deriving DecidableEq, Repr

end Hysteria

/-! ## Hysteria2 node model (`src/node/hysteria2.rs`).  `ServerPort` and
`Speed` are verbatim duplicates of the Hysteria ones in the source, so they
are re-duplicated here to keep the per-file correspondence. -/

namespace Hysteria2

/-- `enum ServerPort` of `src/node/hysteria2.rs`. -/
inductive ServerPort where
  | single (port : Nat)
  | range (startPort endPort : Nat)
deriving DecidableEq, Repr

def ServerPort.get_start_port : ServerPort → Nat
  | .single port => port
  | .range startPort _ => startPort

def ServerPort.is_single : ServerPort → Bool
  | .single _ => true
  | .range _ _ => false

/-- `enum Obfuscation` of `src/node/hysteria2.rs`. -/
inductive Obfuscation where
  | salamander (password : String)
deriving DecidableEq, Repr

/-- `enum Speed` of `src/node/hysteria2.rs` (identical to the Hysteria one). -/
inductive Speed where
  | text (s : String)
  | mbps (n : Nat)
deriving DecidableEq, Repr

/-- `Speed::to_mbps` of `src/node/hysteria2.rs` (identical to
`src/node/hysteria.rs`). -/
def Speed.to_mbps : Speed → Option Nat
  | .text s =>
    let t := s.data
    match Hysteria.speedFamily t [" bps".data, "bps".data, " b".data, "b".data]
        u64Max (fun n => n / 1024 / 1024 % (u32Max + 1)) with
    | some r => r
    | none =>
    match Hysteria.speedFamily t
        [" kbps".data, "kbps".data, " kb".data, "kb".data, " k".data, "k".data]
        u64Max (fun n => n / 1024 % (u32Max + 1)) with
    | some r => r
    | none =>
    match Hysteria.speedFamily t
        [" mbps".data, "mbps".data, " mb".data, "mb".data, " m".data, "m".data]
        u32Max (fun n => n) with
    | some r => r
    | none =>
    match Hysteria.speedFamily t
        [" gbps".data, "gbps".data, " gb".data, "gb".data, " g".data, "g".data]
        u32Max (fun n => n * 1024 % (u32Max + 1)) with
    | some r => r
    | none =>
    match Hysteria.speedFamily t
        [" tbps".data, "tbps".data, " tb".data, "tb".data, " t".data, "t".data]
        u32Max (fun n => n * 1024 * 1024 % (u32Max + 1)) with
    | some r => r
    | none => none
  | .mbps n => some n

/-- `Speed::to_text` of `src/node/hysteria2.rs`. -/
def Speed.to_text : Speed → String
  | .text s => s
  | .mbps n => s!"{n} mbps"

/-- `struct Hysteria2Node` of `src/node/hysteria2.rs`. -/
structure Hysteria2Node where
  remarks : Option String
  server : String
  port : ServerPort
  auth : Option String
  obfs : Option Obfuscation
  up : Option Speed
  down : Option Speed
  tls : Hysteria.TlsOptions
deriving DecidableEq, Repr

end Hysteria2

end Ringer

namespace Ringer

/-! ## Claim C2: Hysteria/Hysteria2 speed text round-trip -/

/-- Claim C2 (status: code_bug).  The claimed property is that for every
integer Mbps value `x`, `to_mbps(Text(to_text(Mbps(x)))) = to_mbps(Mbps(x)) =
Some(x)`.  In the code, `to_text(Mbps(x))` renders `"x mbps"`, and
`to_mbps` checks the `bps` suffix family *before* the `mbps` family; the
text `"10 mbps"` ends with `"bps"`, so `to_mbps` trims `"bps"`, is left with
`"10 m"`, fails the integer parse and returns `None` instead of `Some(10)`.
This theorem evaluates both sides of the claimed equation at the failing
input `x = 10`, for both the Hysteria and the Hysteria2 copy of `Speed`. -/
theorem speed_roundtrip_fails_at_10 :
    Hysteria.Speed.to_mbps (.text (Hysteria.Speed.to_text (.mbps 10))) = none
    ∧ Hysteria.Speed.to_mbps (.mbps 10) = some 10
    ∧ Hysteria2.Speed.to_mbps (.text (Hysteria2.Speed.to_text (.mbps 10))) = none
    ∧ Hysteria2.Speed.to_mbps (.mbps 10) = some 10 := by
  refine ⟨?_, rfl, ?_, rfl⟩ <;> decide

end Ringer

namespace Ringer

/-! ## Shadowsocks node model (`src/node/ss.rs`) -/

namespace Ss

/-- `enum Method` of `src/node/ss.rs` (closed cipher set). -/
inductive Method where
  | ss2022Blake3Aes128Gcm
  | ss2022Blake3Aes256Gcm
  | ss2022Blake3Chacha20Poly1305
  | ss2022Blake3Chacha8Poly1305
  | aeadChacha20Poly1305
  | aeadAes256Gcm
  | aeadAes128Gcm
  | aes128Ctr
  | aes192Ctr
  | aes256Ctr
  | aes128Cfb
  | aes192Cfb
  | aes256Cfb
  | camellia128Cfb
  | camellia192Cfb
  | camellia256Cfb
  | chacha20
  | chacha20Ietf
  | bfCfb
  | salsa20
  | rc4Md5
deriving DecidableEq, Repr

namespace Method

/-- `Method::get_alias` (kebab-case name). -/
def get_alias : Method → String
  | .ss2022Blake3Aes128Gcm => "2022-blake3-aes-128-gcm"
  | .ss2022Blake3Aes256Gcm => "2022-blake3-aes-256-gcm"
  | .ss2022Blake3Chacha20Poly1305 => "2022-blake3-chacha20-poly1305"
  | .ss2022Blake3Chacha8Poly1305 => "2022-blake3-chacha8-poly1305"
  | .aeadChacha20Poly1305 => "chacha20-poly1305"
  | .aeadAes256Gcm => "aes-256-gcm"
  | .aeadAes128Gcm => "aes-128-gcm"
  | .aes128Ctr => "aes-128-ctr"
  | .aes192Ctr => "aes-192-ctr"
  | .aes256Ctr => "aes-256-ctr"
  | .aes128Cfb => "aes-128-cfb"
  | .aes192Cfb => "aes-192-cfb"
  | .aes256Cfb => "aes-256-cfb"
  | .camellia128Cfb => "camellia-128-cfb"
  | .camellia192Cfb => "camellia-192-cfb"
  | .camellia256Cfb => "camellia-256-cfb"
  | .chacha20 => "chacha20"
  | .chacha20Ietf => "chacha20-ietf"
  | .bfCfb => "bf-cfb"
  | .salsa20 => "salsa20"
  | .rc4Md5 => "rc4-md5"

/-- `Method::from_alias`. -/
def from_alias (s : String) : Option Method :=
  if s = "2022-blake3-aes-128-gcm" then some .ss2022Blake3Aes128Gcm
  else if s = "2022-blake3-aes-256-gcm" then some .ss2022Blake3Aes256Gcm
  else if s = "2022-blake3-chacha20-poly1305" then some .ss2022Blake3Chacha20Poly1305
  else if s = "2022-blake3-chacha8-poly1305" then some .ss2022Blake3Chacha8Poly1305
  else if s = "chacha20-poly1305" then some .aeadChacha20Poly1305
  else if s = "aes-256-gcm" then some .aeadAes256Gcm
  else if s = "aes-128-gcm" then some .aeadAes128Gcm
  else if s = "aes-128-ctr" then some .aes128Ctr
  else if s = "aes-192-ctr" then some .aes192Ctr
  else if s = "aes-256-ctr" then some .aes256Ctr
  else if s = "aes-128-cfb" then some .aes128Cfb
  else if s = "aes-192-cfb" then some .aes192Cfb
  else if s = "aes-256-cfb" then some .aes256Cfb
  else if s = "camellia-128-cfb" then some .camellia128Cfb
  else if s = "camellia-192-cfb" then some .camellia192Cfb
  else if s = "camellia-256-cfb" then some .camellia256Cfb
  else if s = "chacha20" then some .chacha20
  else if s = "chacha20-ietf" then some .chacha20Ietf
  else if s = "bf-cfb" then some .bfCfb
  else if s = "salsa20" then some .salsa20
  else if s = "rc4-md5" then some .rc4Md5
  else none

/-- `Method::is_stream_cipher`. -/
def is_stream_cipher : Method → Bool
  | .aes128Ctr | .aes192Ctr | .aes256Ctr
  | .aes128Cfb | .aes192Cfb | .aes256Cfb
  | .camellia128Cfb | .camellia192Cfb | .camellia256Cfb
  | .chacha20 | .chacha20Ietf | .bfCfb | .salsa20 | .rc4Md5 => true
  | _ => false

/-- `Method::is_aead_cipher`. -/
def is_aead_cipher : Method → Bool
  | .aeadChacha20Poly1305 | .aeadAes256Gcm | .aeadAes128Gcm => true
  | _ => false

/-- `Method::is_aead_2022_cipher`. -/
def is_aead_2022_cipher : Method → Bool
  | .ss2022Blake3Aes128Gcm | .ss2022Blake3Aes256Gcm
  | .ss2022Blake3Chacha20Poly1305 | .ss2022Blake3Chacha8Poly1305 => true
  | _ => false

end Method

/-- `enum ObfsType` of `src/node/ss.rs`. -/
inductive ObfsType where
  | http
  | tls
deriving DecidableEq, Repr

/-- `Display for ObfsType` / `ObfsType::as_str`. -/
def ObfsType.as_str : ObfsType → String
  | .http => "http"
  | .tls => "tls"

/-- `struct ObfsOpts` of `src/node/ss.rs`. -/
structure ObfsOpts where
  obfs : Option ObfsType
  host : Option String
  uri : Option String
deriving DecidableEq, Repr

/-- `enum Plugin` of `src/node/ss.rs`.  The `BTreeMap<String, String>` option
map is modelled as a key-sorted association list. -/
inductive Plugin where
  | simpleObfs (opts : ObfsOpts)
  | goQuiet
  | cloak
  | kcptun
  | v2ray
  | unknown (plugin_name : String) (plugin_opts : Option (List (String × String)))
deriving DecidableEq, Repr

/-- `struct SsNode` of `src/node/ss.rs`.  The `Uuid` id is modelled as an
opaque string. -/
structure SsNode where
  id : Option String
  remarks : Option String
  server : String
  server_port : Nat
  password : String
  method : Method
  udp : Option Bool
  udp_over_tcp : Option Bool
  plugin : Option Plugin
deriving DecidableEq, Repr

end Ss

/-! ## ShadowsocksR node model (`src/node/ssr.rs`) -/

/-- `struct SsrNode` of `src/node/ssr.rs`. -/
structure SsrNode where
  remarks : Option String
  server : String
  server_port : Nat
  password : String
  method : String
  protocol : String
  protocol_param : Option String
  obfs : String
  obfs_param : Option String
  udpport : Option Nat
  uot : Option Bool
deriving DecidableEq, Repr

/-! ## Wireguard node model (`src/node/wireguard.rs`) -/

/-- `struct WireguardNode` of `src/node/wireguard.rs`.  `Ipv4Addr`/`Ipv6Addr`
are modelled by their textual rendering; `[u8; 3]` by a triple of bytes. -/
structure WireguardNode where
  remarks : Option String
  server : String
  port : Nat
  ip : Option String
  ipv6 : Option String
  private_key : String
  public_key : String
  pre_shared_key : Option String
  reserved : Option (Nat × Nat × Nat)
deriving DecidableEq, Repr

/-! ## The canonical `Node` enum and the `GetNodeName` trait
(`src/node/mod.rs`) -/

/-- `enum Node` of `src/node/mod.rs`. -/
inductive Node where
  | ss (node : Ss.SsNode)
  | ssr (node : SsrNode)
  | hysteria (node : Hysteria.HysteriaNode)
  | hysteria2 (node : Hysteria2.Hysteria2Node)
  | wireguard (node : WireguardNode)
deriving DecidableEq, Repr

namespace Node

/-- `GetNodeName::get_name` dispatched over the variants (each node type
returns its `remarks`). -/
def get_name : Node → Option String
  | .ss node => node.remarks
  | .ssr node => node.remarks
  | .hysteria node => node.remarks
  | .hysteria2 node => node.remarks
  | .wireguard node => node.remarks

/-- `GetNodeName::get_server` dispatched over the variants. -/
def get_server : Node → String
  | .ss node => node.server
  | .ssr node => node.server
  | .hysteria node => node.server
  | .hysteria2 node => node.server
  | .wireguard node => node.server

/-- `GetNodeName::get_port` dispatched over the variants (Hysteria and
Hysteria2 use the start port of the range). -/
def get_port : Node → Nat
  | .ss node => node.server_port
  | .ssr node => node.server_port
  | .hysteria node => node.port.get_start_port
  | .hysteria2 node => node.port.get_start_port
  | .wireguard node => node.port

/-- `GetNodeName::get_display_name`: explicit name, else `"{server}:{port}"`.
`SsrNode` overrides the default method with these same semantics. -/
def get_display_name (n : Node) : String :=
  match n.get_name with
  | some name => name
  | none => s!"{n.get_server}:{n.get_port}"

end Node

end Ringer

namespace Ringer

/-! ## Sort rules (`src/config.rs`) -/

/-- `struct SortRules` of `src/config.rs`.  Each `HashMap` is modelled as an
association list (the map's key/value pairs in some order); exact lookups
take the first hit, and the `contains` tables are only ever folded over with
`max`, which is independent of the pair order. -/
structure SortRules where
  node_name_to_priority : List (String × Nat)
  node_names_contains : List (String × Nat)
  provider_name_to_priority : List (String × Nat)
  provider_index_to_priority : List (Nat × Nat)
  provider_names_contains : List (String × Nat)

namespace SortRules

/-- `SortRules::empty`. -/
def empty : SortRules := ⟨[], [], [], [], []⟩

/-- `SortRules::get_priority_by_node_name`. -/
def get_priority_by_node_name (rules : SortRules) (name : String) : Option Nat :=
  rules.node_name_to_priority.lookup name

/-- The shared fold of `get_priority_by_node_name_contains` and
`get_priority_by_provider_name_contains`: scan the table, and among the
entries whose key occurs in `name`, keep the largest priority. -/
def containsFold (table : List (String × Nat)) (name : String) : Option Nat :=
  table.foldl
    (fun priority kv =>
      if containsSub name.data kv.1.data then
        match priority with
        | some priority_inner =>
          if kv.2 > priority_inner then some kv.2 else some priority_inner
        | none => some kv.2
      else priority)
    none

/-- `SortRules::get_priority_by_node_name_contains`. -/
def get_priority_by_node_name_contains (rules : SortRules) (name : String) :
    Option Nat :=
  containsFold rules.node_names_contains name

/-- `SortRules::get_priority_by_provider_name`. -/
def get_priority_by_provider_name (rules : SortRules) (name : String) :
    Option Nat :=
  rules.provider_name_to_priority.lookup name

/-- `SortRules::get_priority_by_provider_index`. -/
def get_priority_by_provider_index (rules : SortRules) (index : Nat) :
    Option Nat :=
  rules.provider_index_to_priority.lookup index

/-- `SortRules::get_priority_by_provider_name_contains`. -/
def get_priority_by_provider_name_contains (rules : SortRules) (name : String) :
    Option Nat :=
  containsFold rules.provider_names_contains name

/-- `SortRules::get_node_priority` of `src/config.rs`, a direct
continuation-style compilation of its sequence of early returns. -/
def get_node_priority (rules : SortRules) (node_name provider_name : Option String)
    (provider_index : Option Nat) : Nat :=
  let level5 : Nat :=
    match provider_name with
    | some provider_name =>
      match rules.get_priority_by_provider_name_contains provider_name with
      | some priority => priority
      | none => 0
    | none => 0
  let level4 : Nat :=
    match provider_index with
    | some provider_index =>
      match rules.get_priority_by_provider_index provider_index with
      | some priority => priority
      | none => level5
    | none => level5
  let level3 : Nat :=
    match provider_name with
    | some provider_name =>
      match rules.get_priority_by_provider_name provider_name with
      | some priority => priority
      | none => level4
    | none => level4
  match node_name with
  | some node_name =>
    match rules.get_priority_by_node_name node_name with
    | some priority => priority
    | none =>
      match rules.get_priority_by_node_name_contains node_name with
      | some priority => priority
      | none => level3
  | none => level3

end SortRules

/-! ## Claim C4: evaluation order of the five sort-rule lookup levels.

The specification-side formulation below is written from the words of the
spec ("evaluation order is fixed (node-name exact → node-name contains,
taking the highest-priority match among all contains-matches → provider-name
exact → provider-index exact → provider-name contains) with first-hit-wins
across levels and default priority 0 when nothing matches") and is compared
against the source-translated `SortRules.get_node_priority`. -/

/-- The highest value in a list, if any (spec-side formulation of "taking the
highest-priority match among all contains-matches"). -/
def maxOfList : List Nat → Option Nat
  | [] => none
  | x :: xs =>
    match maxOfList xs with
    | none => some x
    | some m => some (max x m)

/-- Spec-side contains-level: the highest priority among all entries whose
key is contained in `name`. -/
def specContainsLevel (table : List (String × Nat)) (name : String) : Option Nat :=
  maxOfList ((table.filter (fun kv => containsSub name.data kv.1.data)).map (·.2))

/-- Spec-side priority: the five levels in their fixed order, first hit wins,
default 0. -/
def specNodePriority (rules : SortRules) (node_name provider_name : Option String)
    (provider_index : Option Nat) : Nat :=
  (([ node_name.bind (fun n => rules.node_name_to_priority.lookup n),
      node_name.bind (fun n => specContainsLevel rules.node_names_contains n),
      provider_name.bind (fun p => rules.provider_name_to_priority.lookup p),
      provider_index.bind (fun i => rules.provider_index_to_priority.lookup i),
      provider_name.bind (fun p => specContainsLevel rules.provider_names_contains p)
    ].filterMap id).headD 0)

/-- The code's contains-fold computes exactly the spec-side maximum over
matching entries, for any accumulator. -/
theorem containsFold_go (table : List (String × Nat)) (name : String) :
    ∀ acc : Option Nat,
      table.foldl
        (fun priority kv =>
          if containsSub name.data kv.1.data then
            match priority with
            | some priority_inner =>
              if kv.2 > priority_inner then some kv.2 else some priority_inner
            | none => some kv.2
          else priority)
        acc
      = match acc, specContainsLevel table name with
        | none, r => r
        | some a, none => some a
        | some a, some m => some (max a m) := by
  induction table with
  | nil =>
    intro acc
    cases acc <;> simp [specContainsLevel, maxOfList]
  | cons kv rest ih =>
    intro acc
    by_cases hc : containsSub name.data kv.1.data = true
    · cases acc with
      | none =>
        simp only [List.foldl_cons, hc, if_pos, ih]
        simp only [specContainsLevel, List.filter_cons, hc, List.map_cons]
        cases hrest : maxOfList ((rest.filter
            (fun kv => containsSub name.data kv.1.data)).map (·.2)) with
        | none => simp [specContainsLevel, maxOfList, hrest]
        | some m => simp [specContainsLevel, maxOfList, hrest]
      | some a =>
        simp only [List.foldl_cons, hc, if_pos, ih]
        simp only [specContainsLevel, List.filter_cons, hc, List.map_cons]
        cases hrest : maxOfList ((rest.filter
            (fun kv => containsSub name.data kv.1.data)).map (·.2)) with
        | none =>
          simp only [specContainsLevel, maxOfList, hrest]
          by_cases hgt : kv.2 > a <;> simp [hgt] <;> omega
        | some m =>
          simp only [specContainsLevel, maxOfList, hrest]
          by_cases hgt : kv.2 > a
          · simp only [hgt, if_pos]
            congr 1
            omega
          · simp only [hgt, if_neg, Bool.false_eq_true, not_false_eq_true]
            congr 1
            omega
    · cases acc with
      | none =>
        simp only [List.foldl_cons, hc, Bool.false_eq_true, if_false, ih]
        simp [specContainsLevel, List.filter_cons, hc]
      | some a =>
        simp only [List.foldl_cons, hc, Bool.false_eq_true, if_false, ih]
        simp [specContainsLevel, List.filter_cons, hc]

/-- The code's contains-fold equals the spec-side contains level. -/
theorem containsFold_eq_spec (table : List (String × Nat)) (name : String) :
    SortRules.containsFold table name = specContainsLevel table name := by
  have h := containsFold_go table name none
  simpa [SortRules.containsFold] using h

/-- Claim C4 (status: confirmed).  `SortRules::get_node_priority` evaluates
the five lookup tables in the fixed order node-name exact, node-name
contains (highest priority among all contains-matches), provider-name exact,
provider-index exact, provider-name contains; the first level that produces
a match wins, and the result is 0 when no level matches.  Formally, the
source-translated function coincides with the spec-side first-hit
formulation `specNodePriority` on all inputs. -/
theorem get_node_priority_matches_spec_order (rules : SortRules)
    (node_name provider_name : Option String) (provider_index : Option Nat) :
    rules.get_node_priority node_name provider_name provider_index
      = specNodePriority rules node_name provider_name provider_index := by
  unfold SortRules.get_node_priority specNodePriority
  have hcn : ∀ n, rules.get_priority_by_node_name_contains n
      = specContainsLevel rules.node_names_contains n := fun n =>
    containsFold_eq_spec rules.node_names_contains n
  have hcp : ∀ n, rules.get_priority_by_provider_name_contains n
      = specContainsLevel rules.provider_names_contains n := fun n =>
    containsFold_eq_spec rules.provider_names_contains n
  cases node_name with
  | none =>
    cases provider_name with
    | none =>
      cases provider_index with
      | none => simp
      | some i =>
        cases hi : rules.provider_index_to_priority.lookup i <;>
          simp [SortRules.get_priority_by_provider_index, hi]
    | some pn =>
      cases hp : rules.provider_name_to_priority.lookup pn with
      | some v => simp [SortRules.get_priority_by_provider_name, hp]
      | none =>
        cases provider_index with
        | none =>
          cases hc : specContainsLevel rules.provider_names_contains pn <;>
            simp [SortRules.get_priority_by_provider_name, hp,
              SortRules.get_priority_by_provider_name_contains,
              containsFold_eq_spec, hc]
        | some i =>
          cases hi : rules.provider_index_to_priority.lookup i with
          | some v =>
            simp [SortRules.get_priority_by_provider_name, hp,
              SortRules.get_priority_by_provider_index, hi]
          | none =>
            cases hc : specContainsLevel rules.provider_names_contains pn <;>
              simp [SortRules.get_priority_by_provider_name, hp,
                SortRules.get_priority_by_provider_index, hi,
                SortRules.get_priority_by_provider_name_contains,
                containsFold_eq_spec, hc]
  | some nn =>
    cases hn : rules.node_name_to_priority.lookup nn with
    | some v => simp [SortRules.get_priority_by_node_name, hn]
    | none =>
      cases hnc : specContainsLevel rules.node_names_contains nn with
      | some v =>
        simp [SortRules.get_priority_by_node_name, hn,
          SortRules.get_priority_by_node_name_contains, containsFold_eq_spec, hnc]
      | none =>
        cases provider_name with
        | none =>
          cases provider_index with
          | none =>
            simp [SortRules.get_priority_by_node_name, hn,
              SortRules.get_priority_by_node_name_contains,
              containsFold_eq_spec, hnc]
          | some i =>
            cases hi : rules.provider_index_to_priority.lookup i <;>
              simp [SortRules.get_priority_by_node_name, hn,
                SortRules.get_priority_by_node_name_contains,
                containsFold_eq_spec, hnc,
                SortRules.get_priority_by_provider_index, hi]
        | some pn =>
          cases hp : rules.provider_name_to_priority.lookup pn with
          | some v =>
            simp [SortRules.get_priority_by_node_name, hn,
              SortRules.get_priority_by_node_name_contains,
              containsFold_eq_spec, hnc,
              SortRules.get_priority_by_provider_name, hp]
          | none =>
            cases provider_index with
            | none =>
              cases hc : specContainsLevel rules.provider_names_contains pn <;>
                simp [SortRules.get_priority_by_node_name, hn,
                  SortRules.get_priority_by_node_name_contains,
                  containsFold_eq_spec, hnc,
                  SortRules.get_priority_by_provider_name, hp,
                  SortRules.get_priority_by_provider_name_contains, hc]
            | some i =>
              cases hi : rules.provider_index_to_priority.lookup i with
              | some v =>
                simp [SortRules.get_priority_by_node_name, hn,
                  SortRules.get_priority_by_node_name_contains,
                  containsFold_eq_spec, hnc,
                  SortRules.get_priority_by_provider_name, hp,
                  SortRules.get_priority_by_provider_index, hi]
              | none =>
                cases hc : specContainsLevel rules.provider_names_contains pn <;>
                  simp [SortRules.get_priority_by_node_name, hn,
                    SortRules.get_priority_by_node_name_contains,
                    containsFold_eq_spec, hnc,
                    SortRules.get_priority_by_provider_name, hp,
                    SortRules.get_priority_by_provider_index, hi,
                    SortRules.get_priority_by_provider_name_contains, hc]

end Ringer

namespace Ringer

/-! ## Provider model (`src/provider/mod.rs`) -/

/-- `struct CommonProviderOptions` of `src/provider/mod.rs`. -/
structure CommonProviderOptions where
  ss_udp : Option Bool
  ss_udp_over_tcp : Option Bool
  ssr_udpport : Option Nat
  ssr_uot : Option Bool
deriving DecidableEq, Repr

/-- `struct Ssr` of `src/provider/ssr.rs` (an SSR subscription provider). -/
structure SsrProvider where
  name : Option String
  url : String
  options : CommonProviderOptions
deriving DecidableEq, Repr

/-- `struct Clash` of `src/provider/clash.rs` (a Clash subscription provider). -/
structure ClashProvider where
  name : Option String
  url : String
  options : CommonProviderOptions
deriving DecidableEq, Repr

/-- `enum Providers` of `src/provider/mod.rs`. -/
inductive Providers where
  | ssr (p : SsrProvider)
  | clash (p : ClashProvider)
deriving DecidableEq, Repr

/-- `Provider::get_name` for both provider kinds. -/
def Providers.get_name : Providers → Option String
  | .ssr p => p.name
  | .clash p => p.name

end Ringer

namespace Ringer

/-! ## TemplateArgs construction and node sorting (`src/template/mod.rs`)

`TemplateArgs::new` sorts three kinds of node lists with the same comparator
closure; each closure compares two nodes after attaching the provider name
and provider index that are in scope for that list.  A `SortEntry` is a node
together with that attached provider information, so the one comparator
below is the comparator of all three closures. -/

/-- A node together with the provider name / provider index the comparator
closure of `TemplateArgs::new` passes to `SortRules::get_node_priority` for
that node. -/
structure SortEntry where
  node : Node
  provider_name : Option String
  provider_index : Option Nat
deriving DecidableEq, Repr

/-- The priority computed for an entry inside the comparator closures of
`TemplateArgs::new`:
`sort_rules.get_node_priority(node.get_name(), provider_name, provider_index)`. -/
def entryPriority (rules : SortRules) (e : SortEntry) : Nat :=
  rules.get_node_priority e.node.get_name e.provider_name e.provider_index

/-- Rust `Ord::cmp` on unsigned integers. -/
def cmpNat (a b : Nat) : Ordering :=
  if a < b then .lt else if b < a then .gt else .eq

/-- Rust `Ord::cmp` on `String` (lexicographic; UTF-8 byte order coincides
with code-point order, which is the order of Lean's `String` linear order). -/
def cmpStr (a b : String) : Ordering :=
  if a < b then .lt else if b < a then .gt else .eq

/-- The comparator closure of `TemplateArgs::new`: descending priority first,
ties broken by ascending display name. -/
def entryCmp (rules : SortRules) (a b : SortEntry) : Ordering :=
  if entryPriority rules a ≠ entryPriority rules b then
    cmpNat (entryPriority rules b) (entryPriority rules a)
  else cmpStr a.node.get_display_name b.node.get_display_name

/-- `a` may precede `b` in a list sorted by `entryCmp` (the comparator does
not answer `Greater`). -/
def entryLE (rules : SortRules) (a b : SortEntry) : Bool :=
  entryCmp rules a b != Ordering.gt

/-- The sort performed by `TemplateArgs::new` on each node list
(`par_sort_unstable_by` with the comparator above, modelled by a sort that
is correct for that comparator). -/
def sortEntries (rules : SortRules) (es : List SortEntry) : List SortEntry :=
  es.mergeSort (entryLE rules)

/-- The sort key of an entry: its computed priority and its display name. -/
def entryKey (rules : SortRules) (e : SortEntry) : Nat × String :=
  (entryPriority rules e, e.node.get_display_name)

/-- Order on sort keys: higher priority first, then ascending display name. -/
def keyLE (k l : Nat × String) : Prop :=
  l.1 < k.1 ∨ (k.1 = l.1 ∧ k.2 ≤ l.2)

/-- `struct TemplateArgs` of `src/template/mod.rs` (owned view: nodes are
stored directly instead of by reference). -/
structure TemplateArgsModel where
  nodes_by_providers : List (List Node)
  nodes_by_provider_names : List (String × List Node)
  all_nodes : List Node
deriving Repr

/-- `TemplateArgs::new` of `src/template/mod.rs`: sort each provider's node
list, build the name-indexed sorted lists for named providers, and build the
single global sorted list of every provider's nodes plus all standalone
nodes. -/
def templateArgsNew (providers : List Providers)
    (nodes_by_providers : List (List Node)) (standalone_nodes : List Node)
    (sort_rules : SortRules) : TemplateArgsModel :=
  let providerName := fun (index : Nat) => (providers[index]?).bind Providers.get_name
  let nodes_by_providers_output :=
    nodes_by_providers.enum.map (fun (index, nodes) =>
      (sortEntries sort_rules
        (nodes.map (fun node => ⟨node, providerName index, some index⟩))).map (·.node))
  let nodes_by_provider_names_output :=
    nodes_by_providers.enum.filterMap (fun (index, nodes) =>
      match providerName index with
      | some provider_name =>
        some (provider_name,
          (sortEntries sort_rules
            (nodes.map (fun node => ⟨node, some provider_name, some index⟩))).map (·.node))
      | none => none)
  let all_nodes_with_extra_infos :=
    (nodes_by_providers.enum.flatMap (fun (index, nodes) =>
      nodes.map (fun node => (⟨node, providerName index, some index⟩ : SortEntry))))
    ++ standalone_nodes.map (fun node => (⟨node, none, none⟩ : SortEntry))
  { nodes_by_providers := nodes_by_providers_output
    nodes_by_provider_names := nodes_by_provider_names_output
    all_nodes := (sortEntries sort_rules all_nodes_with_extra_infos).map (·.node) }

/-- `entryLE` answers `true` exactly when the keys are in `keyLE` order. -/
theorem entryLE_eq_true_iff (rules : SortRules) (a b : SortEntry) :
    entryLE rules a b = true ↔ keyLE (entryKey rules a) (entryKey rules b) := by
  unfold entryLE entryCmp keyLE entryKey cmpNat cmpStr
  rcases Nat.lt_trichotomy (entryPriority rules a) (entryPriority rules b) with h | h | h
  · have hne : entryPriority rules a ≠ entryPriority rules b := Nat.ne_of_lt h
    have hnlt : ¬ entryPriority rules b < entryPriority rules a := by omega
    rw [if_pos hne, if_neg hnlt, if_pos h]
    constructor
    · intro hbad; exact absurd hbad (by decide)
    · rintro (hlt | ⟨heq, -⟩)
      · omega
      · exact absurd heq hne
  · have hcond : ¬ entryPriority rules a ≠ entryPriority rules b := by omega
    rw [if_neg hcond]
    by_cases h1 : a.node.get_display_name < b.node.get_display_name
    · rw [if_pos h1]
      constructor
      · intro _; exact Or.inr ⟨h, le_of_lt h1⟩
      · intro _; decide
    · rw [if_neg h1]
      by_cases h2 : b.node.get_display_name < a.node.get_display_name
      · rw [if_pos h2]
        constructor
        · intro hbad; exact absurd hbad (by decide)
        · rintro (hlt | ⟨-, hle⟩)
          · omega
          · exact absurd h2 (not_lt.mpr hle)
      · rw [if_neg h2]
        constructor
        · intro _; exact Or.inr ⟨h, not_lt.mp h2⟩
        · intro _; decide
  · have hne : entryPriority rules a ≠ entryPriority rules b := by omega
    rw [if_pos hne, if_pos h]
    constructor
    · intro _; exact Or.inl h
    · intro _; decide

/-- `keyLE` is transitive. -/
theorem keyLE_trans {k l m : Nat × String} (h1 : keyLE k l) (h2 : keyLE l m) :
    keyLE k m := by
  rcases h1 with h1 | ⟨h1e, h1n⟩ <;> rcases h2 with h2 | ⟨h2e, h2n⟩
  · exact Or.inl (lt_trans h2 h1)
  · exact Or.inl (h2e ▸ h1)
  · exact Or.inl (h1e ▸ h2)
  · exact Or.inr ⟨h1e.trans h2e, le_trans h1n h2n⟩

/-- `keyLE` is total. -/
theorem keyLE_total (k l : Nat × String) : keyLE k l ∨ keyLE l k := by
  rcases Nat.lt_trichotomy k.1 l.1 with h | h | h
  · exact Or.inr (Or.inl h)
  · rcases le_total k.2 l.2 with hn | hn
    · exact Or.inl (Or.inr ⟨h, hn⟩)
    · exact Or.inr (Or.inr ⟨h.symm, hn⟩)
  · exact Or.inl (Or.inl h)

/-- `keyLE` is antisymmetric. -/
theorem keyLE_antisymm {k l : Nat × String} (h1 : keyLE k l) (h2 : keyLE l k) :
    k = l := by
  rcases h1 with h1 | ⟨h1e, h1n⟩ <;> rcases h2 with h2 | ⟨h2e, h2n⟩
  · omega
  · omega
  · omega
  · exact Prod.ext h1e (le_antisymm h1n h2n)

/-- `entryLE` is transitive (Bool form needed by the sorting lemmas). -/
theorem entryLE_trans (rules : SortRules) (a b c : SortEntry)
    (h1 : entryLE rules a b) (h2 : entryLE rules b c) : entryLE rules a c :=
  (entryLE_eq_true_iff rules a c).mpr
    (keyLE_trans ((entryLE_eq_true_iff rules a b).mp h1)
      ((entryLE_eq_true_iff rules b c).mp h2))

/-- `entryLE` is total (Bool form needed by the sorting lemmas). -/
theorem entryLE_total (rules : SortRules) (a b : SortEntry) :
    entryLE rules a b || entryLE rules b a := by
  rcases keyLE_total (entryKey rules a) (entryKey rules b) with h | h
  · simp [(entryLE_eq_true_iff rules a b).mpr h]
  · simp [(entryLE_eq_true_iff rules b a).mpr h]

/-- Claim C1 (status: confirmed).  Every node list sorted during
`TemplateArgs` construction (each per-provider list, each named-provider
list and the global list of `templateArgsNew` are `sortEntries` applications)
comes out ordered by descending computed priority with ties in ascending
display-name order; sorting an already-sorted list again leaves it
unchanged; and the sequence of (priority, display name) keys of the result —
i.e. the result up to nodes with identical priority and identical display
name — does not depend on the input order. -/
theorem templateArgs_sort_correct (rules : SortRules) (es : List SortEntry) :
    ((sortEntries rules es).Pairwise (fun a b =>
        entryPriority rules b < entryPriority rules a
        ∨ (entryPriority rules a = entryPriority rules b
            ∧ a.node.get_display_name ≤ b.node.get_display_name)))
    ∧ sortEntries rules (sortEntries rules es) = sortEntries rules es
    ∧ (∀ es' : List SortEntry, es.Perm es' →
        (sortEntries rules es).map (entryKey rules)
          = (sortEntries rules es').map (entryKey rules)) := by
  have hsorted : ∀ l : List SortEntry,
      (sortEntries rules l).Pairwise (fun a b => entryLE rules a b = true) := by
    intro l
    exact List.sorted_mergeSort
      (fun a b c h1 h2 => entryLE_trans rules a b c h1 h2)
      (fun a b => entryLE_total rules a b) l
  refine ⟨?_, ?_, ?_⟩
  · exact (hsorted es).imp (fun {a b} h => (entryLE_eq_true_iff rules a b).mp h)
  · exact List.mergeSort_of_sorted (hsorted es)
  · intro es' hperm
    haveI : IsAntisymm (Nat × String) keyLE := ⟨fun _ _ h1 h2 => keyLE_antisymm h1 h2⟩
    have hkey : ∀ l : List SortEntry,
        ((sortEntries rules l).map (entryKey rules)).Pairwise keyLE := by
      intro l
      exact (List.pairwise_map).mpr
        ((hsorted l).imp (fun {a b} h => (entryLE_eq_true_iff rules a b).mp h))
    have hp : ((sortEntries rules es).map (entryKey rules)).Perm
        ((sortEntries rules es').map (entryKey rules)) := by
      refine List.Perm.map (entryKey rules) ?_
      exact ((List.mergeSort_perm es _).trans hperm).trans (List.mergeSort_perm es' _).symm
    exact List.eq_of_perm_of_sorted hp (hkey es) (hkey es')

end Ringer

namespace Ringer

/-! ## Witness material for the sorting claim -/

/-- Concrete named node used by the sorting witness. -/
def sortWitnessNodeA : Node :=
  .ssr { remarks := some "alpha", server := "a.example.com", server_port := 443,
         password := "pw", method := "aes-128-cfb", protocol := "origin",
         protocol_param := none, obfs := "plain", obfs_param := none,
         udpport := none, uot := none }

/-- Second concrete named node used by the sorting witness. -/
def sortWitnessNodeB : Node :=
  .ssr { remarks := some "beta", server := "b.example.com", server_port := 443,
         password := "pw", method := "aes-128-cfb", protocol := "origin",
         protocol_param := none, obfs := "plain", obfs_param := none,
         udpport := none, uot := none }

/-- Standalone entries (no provider info) for the two witness nodes. -/
def sortWitnessEntryA : SortEntry := ⟨sortWitnessNodeA, none, none⟩

def sortWitnessEntryB : SortEntry := ⟨sortWitnessNodeB, none, none⟩

/-- Witness for claim C1: the permutation hypothesis of the
input-order-independence conjunct holds at a concrete two-entry list, and
the theorem yields the key-sequence equality there. -/
theorem templateArgs_sort_correct_witness :
    ([sortWitnessEntryA, sortWitnessEntryB] : List SortEntry).Perm
        [sortWitnessEntryB, sortWitnessEntryA]
    ∧ (sortEntries SortRules.empty [sortWitnessEntryA, sortWitnessEntryB]).map
          (entryKey SortRules.empty)
      = (sortEntries SortRules.empty [sortWitnessEntryB, sortWitnessEntryA]).map
          (entryKey SortRules.empty) :=
  ⟨List.Perm.swap sortWitnessEntryB sortWitnessEntryA [],
   (templateArgs_sort_correct SortRules.empty
        [sortWitnessEntryA, sortWitnessEntryB]).2.2
      [sortWitnessEntryB, sortWitnessEntryA]
      (List.Perm.swap sortWitnessEntryB sortWitnessEntryA [])⟩

end Ringer

namespace Ringer

/-! ## Template-function node filtering
(`get_filtered_nodes_by_function_args`, `src/template/functions/mod.rs`) -/

/-- Rust `str::starts_with` (string pattern). -/
def strStartsWith (s pat : String) : Bool := pat.data.isPrefixOf s.data

/-- Rust `str::ends_with` (string pattern). -/
def strEndsWith (s pat : String) : Bool := endsWithL s.data pat.data

/-- Rust `str::contains` (string pattern). -/
def strContains (s pat : String) : Bool := containsSub s.data pat.data

/-- The six optional name-filter arguments read by
`get_filtered_nodes_by_function_args` (each is `Some` exactly when the
template invocation supplied that argument). -/
structure NameFilterArgs where
  name_starts_with : Option String
  name_not_starts_with : Option String
  name_ends_with : Option String
  name_not_ends_with : Option String
  name_contains : Option String
  name_not_contains : Option String
deriving DecidableEq, Repr

/-- No name-filter argument was supplied (the condition of the source's
`if ... .is_none() && ...` chain). -/
def NameFilterArgs.all_none (args : NameFilterArgs) : Bool :=
  args.name_starts_with.isNone && args.name_not_starts_with.isNone
  && args.name_ends_with.isNone && args.name_not_ends_with.isNone
  && args.name_contains.isNone && args.name_not_contains.isNone

/-- The per-node predicate of the filter closure in
`get_filtered_nodes_by_function_args`: nodes without an explicit name are
rejected; named nodes run the negative predicates first and then the
positive ones, in source order. -/
def nameFilterPred (args : NameFilterArgs) (node : Node) : Bool :=
  match node.get_name with
  | some name =>
    (args.name_not_starts_with.all fun p => !strStartsWith name p)
    && (args.name_not_ends_with.all fun p => !strEndsWith name p)
    && (args.name_not_contains.all fun p => !strContains name p)
    && (args.name_starts_with.all fun p => strStartsWith name p)
    && (args.name_ends_with.all fun p => strEndsWith name p)
    && (args.name_contains.all fun p => strContains name p)
  | none => false

/-- The name-filter stage of `get_filtered_nodes_by_function_args`: with no
name-filter argument the node iterator is returned unchanged, otherwise it
is filtered through `nameFilterPred`. -/
def get_filtered_nodes_by_name_args (args : NameFilterArgs) (nodes : List Node) :
    List Node :=
  if args.all_none then nodes
  else nodes.filter (nameFilterPred args)

/-- Claim C10 (status: confirmed).  Whenever at least one name-filter
argument is supplied to `get_nodes`/`get_nodes_names` — even a purely
negative one — every node without an explicit name is excluded from the
result; with no name-filter argument the node list passes through unchanged,
so unnamed nodes are included. -/
theorem name_filters_exclude_unnamed_nodes (args : NameFilterArgs)
    (nodes : List Node) :
    (args.all_none = false →
      ∀ node ∈ get_filtered_nodes_by_name_args args nodes, node.get_name ≠ none)
    ∧ (args.all_none = true → get_filtered_nodes_by_name_args args nodes = nodes) := by
  constructor
  · intro h node hmem
    unfold get_filtered_nodes_by_name_args at hmem
    rw [h] at hmem
    simp only [Bool.false_eq_true, if_false] at hmem
    have hpred := List.of_mem_filter hmem
    cases hn : node.get_name with
    | none =>
      unfold nameFilterPred at hpred
      rw [hn] at hpred
      simp at hpred
    | some name => simp [hn]
  · intro h
    unfold get_filtered_nodes_by_name_args
    rw [h]
    simp

/-- Concrete unnamed node for the C10 witness. -/
def filterWitnessNode : Node :=
  .ssr { remarks := none, server := "c.example.com", server_port := 8388,
         password := "pw", method := "aes-256-cfb", protocol := "origin",
         protocol_param := none, obfs := "plain", obfs_param := none,
         udpport := none, uot := none }

/-- Concrete argument set supplying only the negative filter
`name_not_contains`. -/
def filterWitnessArgs : NameFilterArgs :=
  { name_starts_with := none, name_not_starts_with := none,
    name_ends_with := none, name_not_ends_with := none,
    name_contains := none, name_not_contains := some "x" }

/-- Witness for claim C10: with only a negative predicate supplied, a
concrete unnamed node is excluded from the result. -/
theorem name_filters_exclude_unnamed_nodes_witness :
    filterWitnessArgs.all_none = false
    ∧ filterWitnessNode ∉
        get_filtered_nodes_by_name_args filterWitnessArgs [filterWitnessNode] :=
  ⟨rfl,
   fun hmem =>
     (name_filters_exclude_unnamed_nodes filterWitnessArgs
        [filterWitnessNode]).1 rfl filterWitnessNode hmem rfl⟩

end Ringer

namespace Ringer

/-- `SsNode`'s `GetNodeName::get_display_name` (same dispatch as the `Node`
wrapper). -/
def ssDisplayName (node : Ss.SsNode) : String :=
  (Node.ss node).get_display_name

/-! ## Clash adaptor (`src/template/adaptors/clash.rs`) -/

namespace ClashAdaptor

/-- `enum ClashSsPluginObfsType`. -/
inductive ClashSsPluginObfsType where
  | http
  | tls
deriving DecidableEq, Repr

/-- `From<ObfsType> for ClashSsPluginObfsType`. -/
def obfsTypeToClash : Ss.ObfsType → ClashSsPluginObfsType
  | .http => .http
  | .tls => .tls

/-- `struct ClashSsPluginObfsOpts` (mode and host only — Clash has no
`obfs-uri` field). -/
structure ClashSsPluginObfsOpts where
  mode : Option ClashSsPluginObfsType
  host : Option String
deriving DecidableEq, Repr

/-- `TryFrom<ObfsOpts> for ClashSsPluginObfsOpts`: fails (with
`UriUnsupported`) when the obfs options carry a uri. -/
def obfsOptsTryIntoClash (value : Ss.ObfsOpts) : Option ClashSsPluginObfsOpts :=
  if value.uri.isSome then none
  else some { mode := value.obfs.map obfsTypeToClash, host := value.host }

/-- `enum ClashSsPlugin`. -/
inductive ClashSsPlugin where
  | obfs (plugin_opts : ClashSsPluginObfsOpts)
deriving DecidableEq, Repr

/-- `TryFrom<SsPlugin> for ClashSsPlugin`: only Simple-Obfs converts. -/
def ssPluginTryIntoClash : Ss.Plugin → Option ClashSsPlugin
  | .simpleObfs obfs_opts => (obfsOptsTryIntoClash obfs_opts).map (.obfs ·)
  | _ => none

/-- The `ClashProxy::Ss` variant of `src/template/adaptors/clash.rs`. -/
structure ClashSsProxy where
  name : String
  server : String
  port : Nat
  cipher : String
  password : String
  udp : Option Bool
  plugin : Option ClashSsPlugin
deriving DecidableEq, Repr

/-- The `Node::Ss` arm of `Clash::convert_node`. -/
def convertSs (ss_node : Ss.SsNode) : Option ClashSsProxy :=
  if ss_node.method.is_aead_2022_cipher then none
  else
    match ss_node.plugin with
    | some plugin =>
      match ssPluginTryIntoClash plugin with
      | some clash_ss_plugin =>
        some { name := ssDisplayName ss_node, server := ss_node.server,
               port := ss_node.server_port, cipher := ss_node.method.get_alias,
               password := ss_node.password, udp := ss_node.udp,
               plugin := some clash_ss_plugin }
      | none => none
    | none =>
      some { name := ssDisplayName ss_node, server := ss_node.server,
             port := ss_node.server_port, cipher := ss_node.method.get_alias,
             password := ss_node.password, udp := ss_node.udp, plugin := none }

end ClashAdaptor

/-- Claim C6 (status: confirmed).  For a Shadowsocks node, the Clash
adaptor's `convert_node` returns `None` exactly when the cipher is an
AEAD-2022 method, or the node carries a non-Simple-Obfs plugin, or a
Simple-Obfs plugin whose `uri` is set; otherwise it returns a proxy whose
plugin options carry only the obfs mode and host. -/
theorem clash_convert_ss_none_iff (ss : Ss.SsNode) :
    (ClashAdaptor.convertSs ss = none ↔
      ss.method.is_aead_2022_cipher = true
      ∨ (∃ p, ss.plugin = some p ∧ ∀ o, p ≠ .simpleObfs o)
      ∨ (∃ o, ss.plugin = some (.simpleObfs o) ∧ o.uri ≠ none))
    ∧ (∀ o, ss.method.is_aead_2022_cipher = false →
        ss.plugin = some (.simpleObfs o) → o.uri = none →
        ClashAdaptor.convertSs ss = some
          { name := ssDisplayName ss, server := ss.server, port := ss.server_port,
            cipher := ss.method.get_alias, password := ss.password, udp := ss.udp,
            plugin := some (.obfs { mode := o.obfs.map ClashAdaptor.obfsTypeToClash,
                                    host := o.host }) })
    ∧ (ss.method.is_aead_2022_cipher = false → ss.plugin = none →
        ClashAdaptor.convertSs ss = some
          { name := ssDisplayName ss, server := ss.server, port := ss.server_port,
            cipher := ss.method.get_alias, password := ss.password, udp := ss.udp,
            plugin := none }) := by
  refine ⟨?_, ?_, ?_⟩
  · unfold ClashAdaptor.convertSs
    by_cases h2022 : ss.method.is_aead_2022_cipher
    · simp [h2022]
    · simp only [h2022, Bool.false_eq_true, if_false]
      cases hp : ss.plugin with
      | none => simp [h2022]
      | some plugin =>
        cases plugin with
        | simpleObfs o =>
          cases huri : o.uri with
          | none =>
            simp [ClashAdaptor.ssPluginTryIntoClash,
              ClashAdaptor.obfsOptsTryIntoClash, huri, h2022]
          | some u =>
            simp only [ClashAdaptor.ssPluginTryIntoClash,
              ClashAdaptor.obfsOptsTryIntoClash, huri, Option.isSome_some,
              if_pos, Option.map_none]
            constructor
            · intro _
              exact Or.inr (Or.inr ⟨o, rfl, by simp [huri]⟩)
            · intro _; trivial
        | goQuiet =>
          simp only [ClashAdaptor.ssPluginTryIntoClash]
          constructor
          · intro _
            exact Or.inr (Or.inl ⟨.goQuiet, rfl, fun o => by simp⟩)
          · intro _; trivial
        | cloak =>
          simp only [ClashAdaptor.ssPluginTryIntoClash]
          constructor
          · intro _
            exact Or.inr (Or.inl ⟨.cloak, rfl, fun o => by simp⟩)
          · intro _; trivial
        | kcptun =>
          simp only [ClashAdaptor.ssPluginTryIntoClash]
          constructor
          · intro _
            exact Or.inr (Or.inl ⟨.kcptun, rfl, fun o => by simp⟩)
          · intro _; trivial
        | v2ray =>
          simp only [ClashAdaptor.ssPluginTryIntoClash]
          constructor
          · intro _
            exact Or.inr (Or.inl ⟨.v2ray, rfl, fun o => by simp⟩)
          · intro _; trivial
        | unknown pname popts =>
          simp only [ClashAdaptor.ssPluginTryIntoClash]
          constructor
          · intro _
            exact Or.inr (Or.inl ⟨.unknown pname popts, rfl, fun o => by simp⟩)
          · intro _; trivial
  · intro o h2022 hp huri
    unfold ClashAdaptor.convertSs
    simp [h2022, hp, ClashAdaptor.ssPluginTryIntoClash,
      ClashAdaptor.obfsOptsTryIntoClash, huri]
  · intro h2022 hp
    unfold ClashAdaptor.convertSs
    simp [h2022, hp]

/-- Concrete Shadowsocks node with a Simple-Obfs plugin (mode http, a host,
no uri) for the C6 witness. -/
def clashWitnessSs : Ss.SsNode :=
  { id := none, remarks := some "n1", server := "s.example.com",
    server_port := 8388, password := "pw", method := .rc4Md5, udp := some true,
    udp_over_tcp := none,
    plugin := some (.simpleObfs { obfs := some .http,
                                  host := some "h.example.com", uri := none }) }

/-- Witness for claim C6: the positive conversion case at a concrete node. -/
theorem clash_convert_ss_none_iff_witness :
    clashWitnessSs.method.is_aead_2022_cipher = false
    ∧ clashWitnessSs.plugin
        = some (.simpleObfs { obfs := some .http, host := some "h.example.com",
                              uri := none })
    ∧ ClashAdaptor.convertSs clashWitnessSs = some
        { name := "n1", server := "s.example.com", port := 8388,
          cipher := "rc4-md5", password := "pw", udp := some true,
          plugin := some (.obfs { mode := some .http,
                                  host := some "h.example.com" }) } :=
  ⟨rfl, rfl,
   (clash_convert_ss_none_iff clashWitnessSs).2.1
     { obfs := some .http, host := some "h.example.com", uri := none }
     rfl rfl rfl⟩

end Ringer

namespace Ringer

/-! ## Surge adaptor (`src/template/adaptors/surge.rs`) -/

namespace SurgeAdaptor

/-- The fields of `ProxyType::Ss` of `src/template/adaptors/surge.rs`. -/
structure SurgeSsProxy where
  host : String
  port : Nat
  encrypt_method : String
  password : String
  obfs : Option Ss.ObfsOpts
  udp_relay : Bool
deriving DecidableEq, Repr

/-- `enum ProxyType` of `src/template/adaptors/surge.rs` (Ss fields grouped
in a structure for field access). -/
inductive SurgeProxyType where
  | ss (p : SurgeSsProxy)
  | hysteria2 (host : String) (port : Nat) (password : String)
      (download_bandwidth : Option Nat)
  | wireguard (section_name : String)
deriving DecidableEq, Repr

/-- `struct SurgeProxy`. -/
structure SurgeProxy where
  name : String
  proxy : SurgeProxyType
deriving DecidableEq, Repr

/-- The `Node::Ss` arm of `Surge::convert_node`.  `udp_relay` is
`matches!(&ss_node.udp, Some(true) if !matches!(ss_node.udp_over_tcp, Some(true)))`. -/
def convertSs (ss_node : Ss.SsNode) : Option SurgeProxy :=
  match ss_node.plugin with
  | some (.simpleObfs obfs_opts) =>
    some { name := ssDisplayName ss_node,
           proxy := .ss { host := ss_node.server,
                          port := ss_node.server_port,
                          encrypt_method := ss_node.method.get_alias,
                          password := ss_node.password,
                          obfs := some obfs_opts,
                          udp_relay := ss_node.udp == some true
                            && !(ss_node.udp_over_tcp == some true) } }
  | some _ => none
  | none =>
    some { name := ssDisplayName ss_node,
           proxy := .ss { host := ss_node.server,
                          port := ss_node.server_port,
                          encrypt_method := ss_node.method.get_alias,
                          password := ss_node.password,
                          obfs := none,
                          udp_relay := ss_node.udp == some true
                            && !(ss_node.udp_over_tcp == some true) } }

end SurgeAdaptor

/-- The Surge Ss conversion always emits
`udp_relay = (udp == Some(true) && !(udp_over_tcp == Some(true)))`. -/
theorem surge_convert_ss_udp_relay_char (ss : Ss.SsNode) (q : SurgeAdaptor.SurgeProxy)
    (sp : SurgeAdaptor.SurgeSsProxy) (hq : SurgeAdaptor.convertSs ss = some q)
    (hsp : q.proxy = .ss sp) :
    sp.udp_relay = (ss.udp == some true && !(ss.udp_over_tcp == some true)) := by
  unfold SurgeAdaptor.convertSs at hq
  cases hp : ss.plugin with
  | none =>
    rw [hp] at hq
    cases hq
    cases hsp
    rfl
  | some plugin =>
    cases plugin with
    | simpleObfs o =>
      rw [hp] at hq
      cases hq
      cases hsp
      rfl
    | goQuiet => rw [hp] at hq; cases hq
    | cloak => rw [hp] at hq; cases hq
    | kcptun => rw [hp] at hq; cases hq
    | v2ray => rw [hp] at hq; cases hq
    | unknown a b => rw [hp] at hq; cases hq

/-- Claim C7 (status: confirmed).  Whenever the Surge adaptor converts a
Shadowsocks node, the emitted `udp-relay` flag is true exactly when the
node's `udp` is `Some(true)` and its `udp_over_tcp` is not `Some(true)`; in
particular `udp = Some(true)` together with `udp_over_tcp = Some(true)`
yields `udp-relay = false`. -/
theorem surge_ss_udp_relay (ss : Ss.SsNode) :
    (∀ q sp, SurgeAdaptor.convertSs ss = some q →
        q.proxy = .ss sp →
        (sp.udp_relay = true ↔ (ss.udp = some true ∧ ss.udp_over_tcp ≠ some true)))
    ∧ (∀ q sp, ss.udp = some true → ss.udp_over_tcp = some true →
        SurgeAdaptor.convertSs ss = some q → q.proxy = .ss sp →
        sp.udp_relay = false) := by
  constructor
  · intro q sp hq hsp
    rw [surge_convert_ss_udp_relay_char ss q sp hq hsp]
    constructor
    · intro h
      have h1 := (Bool.and_eq_true _ _).mp h
      refine ⟨eq_of_beq h1.1, fun hc => ?_⟩
      have h2 := h1.2
      rw [hc] at h2
      simp at h2
    · rintro ⟨h1, h2⟩
      rw [h1]
      simp only [beq_self_eq_true, Bool.true_and]
      cases huot : ss.udp_over_tcp with
      | none => rfl
      | some b =>
        cases b with
        | false => rfl
        | true => exact absurd huot h2
  · intro q sp hudp huot hq hsp
    rw [surge_convert_ss_udp_relay_char ss q sp hq hsp, huot]
    simp

/-- Concrete Shadowsocks node with `udp = Some(true)` and
`udp_over_tcp = Some(true)` for the C7 witness. -/
def surgeWitnessSs : Ss.SsNode :=
  { id := none, remarks := some "n2", server := "s.example.com",
    server_port := 8388, password := "pw", method := .aeadAes128Gcm,
    udp := some true, udp_over_tcp := some true, plugin := none }

/-- Witness for claim C7: at a concrete node with `udp = Some(true)` and
`udp_over_tcp = Some(true)`, conversion succeeds and `udp-relay` is false. -/
theorem surge_ss_udp_relay_witness :
    surgeWitnessSs.udp = some true
    ∧ surgeWitnessSs.udp_over_tcp = some true
    ∧ ({ host := "s.example.com", port := 8388, encrypt_method := "aes-128-gcm",
         password := "pw", obfs := none,
         udp_relay := false } : SurgeAdaptor.SurgeSsProxy).udp_relay = false :=
  ⟨rfl, rfl,
   (surge_ss_udp_relay surgeWitnessSs).2
     { name := "n2",
       proxy := .ss { host := "s.example.com",
                      port := 8388,
                      encrypt_method := "aes-128-gcm",
                      password := "pw",
                      obfs := none,
                      udp_relay := false } }
     { host := "s.example.com", port := 8388, encrypt_method := "aes-128-gcm",
       password := "pw", obfs := none, udp_relay := false }
     rfl rfl rfl rfl⟩

end Ringer

namespace Ringer

/-! ## Clash-Meta adaptor, Hysteria arms (`src/template/adaptors/clash_meta.rs`) -/

namespace ClashMetaAdaptor

/-- The fields of `ClashMetaProxy::Hysteria`. -/
structure ClashMetaHysteriaProxy where
  name : String
  server : String
  port : Nat
  ports : Option String
  auth_str : Option String
  obfs : Option String
  apln : Option (List String)
  protocol : Option String
  up : String
  down : String
  sni : Option String
  skip_cert_verify : Option Bool
  disable_mtu_discovery : Option Bool
  fast_open : Option Bool
deriving DecidableEq, Repr

/-- The fields of `ClashMetaProxy::Hysteria2`. -/
structure ClashMetaHysteria2Proxy where
  name : String
  server : String
  port : Nat
  ports : Option String
  password : Option String
  obfs : Option String
  obfs_password : Option String
  sni : Option String
  apln : Option (List String)
  skip_cert_verify : Option Bool
  up : Option String
  down : Option String
deriving DecidableEq, Repr

/-- The `Node::Hysteria` arm of `ClashMeta::convert_node` (this arm always
returns `Some`). -/
def convertHysteria (hysteria_node : Hysteria.HysteriaNode) :
    ClashMetaHysteriaProxy :=
  { name := (Node.hysteria hysteria_node).get_display_name
    server := hysteria_node.server
    port := hysteria_node.port.get_start_port
    ports := match hysteria_node.port with
      | .single _ => none
      | .range startPort endPort => some s!"{startPort}-{endPort}"
    auth_str := hysteria_node.auth
    obfs := hysteria_node.obfs
    apln := hysteria_node.tls.alpn
    protocol := hysteria_node.protocol.map (·.toText)
    up := match hysteria_node.up with
      | .text up => up
      | .mbps up => s!"{up} Mbps"
    down := match hysteria_node.down with
      | .text down => down
      | .mbps down => s!"{down} Mbps"
    sni := hysteria_node.tls.sni
    skip_cert_verify := hysteria_node.tls.insecure
    disable_mtu_discovery := none
    fast_open := none }

/-- The `Node::Hysteria2` arm of `ClashMeta::convert_node` (this arm always
returns `Some`). -/
def convertHysteria2 (hysteria2_node : Hysteria2.Hysteria2Node) :
    ClashMetaHysteria2Proxy :=
  { name := (Node.hysteria2 hysteria2_node).get_display_name
    server := hysteria2_node.server
    port := hysteria2_node.port.get_start_port
    ports := match hysteria2_node.port with
      | .single _ => none
      | .range startPort endPort => some s!"{startPort}-{endPort}"
    password := hysteria2_node.auth
    obfs := hysteria2_node.obfs.map (fun obfs => match obfs with
      | .salamander _ => "salamander")
    obfs_password := hysteria2_node.obfs.map (fun obfs => match obfs with
      | .salamander password => password)
    sni := hysteria2_node.tls.sni
    apln := hysteria2_node.tls.alpn
    skip_cert_verify := hysteria2_node.tls.insecure
    up := hysteria2_node.up.map (·.to_text)
    down := hysteria2_node.down.map (·.to_text) }

end ClashMetaAdaptor

/-! ## sing-box adaptor, Hysteria arms (`src/template/adaptors/sing_box.rs`) -/

namespace SingBoxAdaptor

/-- `struct SingBoxTlsOptions`. -/
structure SingBoxTlsOptions where
  enabled : Bool
  server_name : Option String
  insecure : Option Bool
  alpn : Option (List String)
deriving DecidableEq, Repr

/-- `enum SingBoxHysteria2Obfuscation`. -/
inductive SingBoxHysteria2Obfuscation where
  | salamander (password : String)
deriving DecidableEq, Repr

/-- The fields of `SingBoxNode::Hysteria`. -/
structure SingBoxHysteriaOutbound where
  tag : String
  server : String
  server_port : Option Nat
  server_ports : Option (List String)
  up : Option String
  up_mbps : Option Nat
  down : Option String
  down_mbps : Option Nat
  obfs : Option String
  auth_str : Option String
  tls : SingBoxTlsOptions
deriving DecidableEq, Repr

/-- The fields of `SingBoxNode::Hysteria2`. -/
structure SingBoxHysteria2Outbound where
  tag : String
  server : String
  server_port : Option Nat
  server_ports : Option (List String)
  up_mbps : Option Nat
  down_mbps : Option Nat
  obfs : Option SingBoxHysteria2Obfuscation
  password : Option String
  tls : SingBoxTlsOptions
deriving DecidableEq, Repr

/-- The `Node::Hysteria` arm of `SingBox::convert_node` (this arm always
returns `Some`). -/
def convertHysteria (hysteria_node : Hysteria.HysteriaNode) :
    SingBoxHysteriaOutbound :=
  { tag := (Node.hysteria hysteria_node).get_display_name
    server := hysteria_node.server
    server_port := match hysteria_node.port with
      | .single port => some port
      | _ => none
    server_ports := match hysteria_node.port with
      | .single _ => none
      | .range startPort endPort => some [s!"{startPort}:{endPort}"]
    up := match hysteria_node.up with
      | .text up => some up
      | .mbps _ => none
    up_mbps := match hysteria_node.up with
      | .text _ => none
      | .mbps up => some up
    down := match hysteria_node.down with
      | .text down => some down
      | .mbps _ => none
    down_mbps := match hysteria_node.down with
      | .text _ => none
      | .mbps down => some down
    obfs := hysteria_node.obfs
    auth_str := hysteria_node.auth
    tls := { enabled := true
             server_name := some (hysteria_node.tls.sni.getD hysteria_node.server)
             insecure := hysteria_node.tls.insecure
             alpn := hysteria_node.tls.alpn } }

/-- The `Node::Hysteria2` arm of `SingBox::convert_node` (this arm always
returns `Some`).  The source calls `.to_mbps()` through the `Option`-valued
`up`/`down` fields; this is modelled with `Option.bind`. -/
def convertHysteria2 (hysteria2_node : Hysteria2.Hysteria2Node) :
    SingBoxHysteria2Outbound :=
  { tag := (Node.hysteria2 hysteria2_node).get_display_name
    server := hysteria2_node.server
    server_port := match hysteria2_node.port with
      | .single port => some port
      | _ => none
    server_ports := match hysteria2_node.port with
      | .single _ => none
      | .range startPort endPort => some [s!"{startPort}:{endPort}"]
    up_mbps := hysteria2_node.up.bind (·.to_mbps)
    down_mbps := hysteria2_node.down.bind (·.to_mbps)
    obfs := hysteria2_node.obfs.map (fun obfs => match obfs with
      | .salamander password => .salamander password)
    password := hysteria2_node.auth
    tls := { enabled := true
             server_name := some (hysteria2_node.tls.sni.getD hysteria2_node.server)
             insecure := hysteria2_node.tls.insecure
             alpn := hysteria2_node.tls.alpn } }

end SingBoxAdaptor

/-- Concrete Hysteria node with port range 443-8443 for the C8
counterexample. -/
def hysteriaRangeNode : Hysteria.HysteriaNode :=
  { remarks := some "hy", server := "h.example.com",
    port := .range 443 8443, protocol := none, up := .mbps 100,
    down := .mbps 100, obfs := none, auth := none,
    tls := { sni := none, insecure := none, alpn := none } }

/-- Counterexample to claim C8 as stated: for a Hysteria node with port
range 443-8443, the Clash-Meta conversion populates the scalar `port` field
(with the start port, 443 — the field is mandatory in the Clash-Meta schema)
*and* the ranged `ports` field ("443-8443") at the same time, so "the scalar
and ranged fields are never both populated for the same node" fails for
Clash-Meta. -/
theorem clash_meta_range_populates_both_fields :
    (ClashMetaAdaptor.convertHysteria hysteriaRangeNode).port = 443
    ∧ (ClashMetaAdaptor.convertHysteria hysteriaRangeNode).ports
        = some "443-8443" := by
  constructor
  · rfl
  · rfl

/-- Claim C8, amended (status: corrected).  For Hysteria and Hysteria2
nodes: the Clash-Meta adaptor renders a port range as `"start-end"` in
`ports` and leaves `ports` empty for a single port, while its scalar `port`
field is mandatory and always carries the start port (so for a range both
fields are populated); the sing-box adaptor renders a range as the
single-element list `["start:end"]` in `server_ports` with `server_port`
empty, and a single port as a populated scalar `server_port` with
`server_ports` empty — for sing-box the scalar and ranged fields are never
both populated. -/
theorem hysteria_port_range_rendering
    (hy : Hysteria.HysteriaNode) (h2 : Hysteria2.Hysteria2Node) :
    ((ClashMetaAdaptor.convertHysteria hy).port = hy.port.get_start_port
      ∧ (∀ p, hy.port = .single p →
          (ClashMetaAdaptor.convertHysteria hy).ports = none)
      ∧ (∀ s e, hy.port = .range s e →
          (ClashMetaAdaptor.convertHysteria hy).ports = some s!"{s}-{e}"))
    ∧ ((ClashMetaAdaptor.convertHysteria2 h2).port = h2.port.get_start_port
      ∧ (∀ p, h2.port = .single p →
          (ClashMetaAdaptor.convertHysteria2 h2).ports = none)
      ∧ (∀ s e, h2.port = .range s e →
          (ClashMetaAdaptor.convertHysteria2 h2).ports = some s!"{s}-{e}"))
    ∧ ((∀ p, hy.port = .single p →
          (SingBoxAdaptor.convertHysteria hy).server_port = some p
          ∧ (SingBoxAdaptor.convertHysteria hy).server_ports = none)
      ∧ (∀ s e, hy.port = .range s e →
          (SingBoxAdaptor.convertHysteria hy).server_port = none
          ∧ (SingBoxAdaptor.convertHysteria hy).server_ports = some [s!"{s}:{e}"])
      ∧ ¬((SingBoxAdaptor.convertHysteria hy).server_port.isSome
          ∧ (SingBoxAdaptor.convertHysteria hy).server_ports.isSome))
    ∧ ((∀ p, h2.port = .single p →
          (SingBoxAdaptor.convertHysteria2 h2).server_port = some p
          ∧ (SingBoxAdaptor.convertHysteria2 h2).server_ports = none)
      ∧ (∀ s e, h2.port = .range s e →
          (SingBoxAdaptor.convertHysteria2 h2).server_port = none
          ∧ (SingBoxAdaptor.convertHysteria2 h2).server_ports = some [s!"{s}:{e}"])
      ∧ ¬((SingBoxAdaptor.convertHysteria2 h2).server_port.isSome
          ∧ (SingBoxAdaptor.convertHysteria2 h2).server_ports.isSome)) := by
  refine ⟨⟨rfl, ?_, ?_⟩, ⟨rfl, ?_, ?_⟩, ⟨?_, ?_, ?_⟩, ⟨?_, ?_, ?_⟩⟩
  · intro p hp
    simp [ClashMetaAdaptor.convertHysteria, hp]
  · intro s e hp
    simp [ClashMetaAdaptor.convertHysteria, hp]
  · intro p hp
    simp [ClashMetaAdaptor.convertHysteria2, hp]
  · intro s e hp
    simp [ClashMetaAdaptor.convertHysteria2, hp]
  · intro p hp
    constructor <;> simp [SingBoxAdaptor.convertHysteria, hp]
  · intro s e hp
    constructor <;> simp [SingBoxAdaptor.convertHysteria, hp]
  · rintro ⟨h1, hmore⟩
    cases hp : hy.port with
    | single p =>
      have := hmore
      simp [SingBoxAdaptor.convertHysteria, hp] at hmore
    | range s e =>
      simp [SingBoxAdaptor.convertHysteria, hp] at h1
  · intro p hp
    constructor <;> simp [SingBoxAdaptor.convertHysteria2, hp]
  · intro s e hp
    constructor <;> simp [SingBoxAdaptor.convertHysteria2, hp]
  · rintro ⟨h1, hmore⟩
    cases hp : h2.port with
    | single p =>
      simp [SingBoxAdaptor.convertHysteria2, hp] at hmore
    | range s e =>
      simp [SingBoxAdaptor.convertHysteria2, hp] at h1

/-- Concrete Hysteria2 node with a single port for the C8 witness. -/
def hysteria2SingleNode : Hysteria2.Hysteria2Node :=
  { remarks := some "hy2", server := "h2.example.com", port := .single 443,
    auth := some "secret", obfs := none, up := none, down := none,
    tls := { sni := none, insecure := none, alpn := none } }

/-- Witness for the amended claim C8: evaluating a range hypothesis and a
single-port hypothesis at concrete nodes. -/
theorem hysteria_port_range_rendering_witness :
    hysteriaRangeNode.port = .range 443 8443
    ∧ hysteria2SingleNode.port = .single 443
    ∧ ((SingBoxAdaptor.convertHysteria hysteriaRangeNode).server_port = none
        ∧ (SingBoxAdaptor.convertHysteria hysteriaRangeNode).server_ports
            = some ["443:8443"])
    ∧ ((SingBoxAdaptor.convertHysteria2 hysteria2SingleNode).server_port = some 443
        ∧ (SingBoxAdaptor.convertHysteria2 hysteria2SingleNode).server_ports = none) :=
  ⟨rfl, rfl,
   (hysteria_port_range_rendering hysteriaRangeNode hysteria2SingleNode).2.2.1.2.1
     443 8443 rfl,
   (hysteria_port_range_rendering hysteriaRangeNode hysteria2SingleNode).2.2.2.1
     443 rfl⟩

end Ringer

namespace Ringer

/-! ## Panic-aware results and byte-level codec models.

`PResult` is the outcome type for Rust code that may return `Ok`, return
`Err`, or panic (`unwrap`, out-of-bounds indexing).  The codec helpers model
the external crates (`base64_simd` URL-safe no-pad decoding, UTF-8
encoding / lossy decoding, percent-decoding, `form_urlencoded` query
parsing) at the byte level the decoders rely on; all recursion is structural
or fuel-driven so that concrete links evaluate inside the kernel. -/

/-- Outcome of fallible Rust code that can also panic. -/
inductive PResult (α : Type) where
  | ok (value : α)
  | error (msg : String)
  | panicked (msg : String)
deriving DecidableEq, Repr

/-- Sequencing of panic-aware computations (`?` plus panic propagation). -/
def PResult.bind {α β : Type} : PResult α → (α → PResult β) → PResult β
  | .ok a, f => f a
  | .error msg, _ => .error msg
  | .panicked msg, _ => .panicked msg

/-- Generic split at every separator occurrence, keeping empty pieces
(Rust `split` with a single-element pattern). -/
def splitSep {α : Type} [DecidableEq α] (sep : α) : List α → List (List α)
  | [] => [[]]
  | c :: cs =>
    let r := splitSep sep cs
    if c = sep then [] :: r
    else
      match r with
      | h :: t => (c :: h) :: t
      | [] => [[c]]

/-- Split at the first separator occurrence only (`split_once`-style; the
second component is `none` when the separator does not occur). -/
def splitAtFirst {α : Type} [DecidableEq α] (sep : α) : List α → List α × Option (List α)
  | [] => ([], none)
  | c :: cs =>
    if c = sep then ([], some cs)
    else
      let r := splitAtFirst sep cs
      (c :: r.1, r.2)

/-- Value of one URL-safe base64 alphabet character. -/
def b64UrlVal (c : Char) : Option Nat :=
  if 'A' ≤ c && c ≤ 'Z' then some (c.toNat - 65)
  else if 'a' ≤ c && c ≤ 'z' then some (c.toNat - 97 + 26)
  else if '0' ≤ c && c ≤ '9' then some (c.toNat - 48 + 52)
  else if c = '-' then some 62
  else if c = '_' then some 63
  else none

/-- Decode one final base64 group of 2-4 six-bit values into 1-3 bytes,
rejecting a lone value (length ≡ 1 mod 4) and non-zero trailing bits. -/
def b64Group : List Nat → Option (List Nat)
  | [a, b] => if b % 16 = 0 then some [a * 4 + b / 16] else none
  | [a, b, c] =>
    if c % 4 = 0 then some [a * 4 + b / 16, b % 16 * 16 + c / 4] else none
  | [a, b, c, d] => some [a * 4 + b / 16, b % 16 * 16 + c / 4, c % 4 * 64 + d]
  | _ => none

/-- Fuel-driven worker decoding four six-bit values at a time. -/
def b64DecodeValsAux : Nat → List Nat → Option (List Nat)
  | _, [] => some []
  | 0, _ => none
  | fuel + 1, vs =>
    if vs.length ≤ 4 then b64Group vs
    else
      match b64Group (vs.take 4), b64DecodeValsAux fuel (vs.drop 4) with
      | some hd, some tl => some (hd ++ tl)
      | _, _ => none

/-- Model of `base64_simd::URL_SAFE_NO_PAD.decode_to_vec`: URL-safe
alphabet, no padding accepted, canonical trailing bits required. -/
def base64UrlNoPadDecode (s : String) : Option (List Nat) :=
  match s.data.mapM b64UrlVal with
  | some vs => b64DecodeValsAux vs.length vs
  | none => none

/-- UTF-8 encoding of one scalar value. -/
def charUtf8 (c : Char) : List Nat :=
  let n := c.toNat
  if n < 0x80 then [n]
  else if n < 0x800 then [0xC0 + n / 64, 0x80 + n % 64]
  else if n < 0x10000 then
    [0xE0 + n / 4096, 0x80 + n / 64 % 64, 0x80 + n % 64]
  else
    [0xF0 + n / 262144, 0x80 + n / 4096 % 64, 0x80 + n / 64 % 64, 0x80 + n % 64]

/-- UTF-8 bytes of a string. -/
def strUtf8 (s : String) : List Nat := s.data.flatMap charUtf8

/-- The Unicode replacement character U+FFFD. -/
def replacementChar : Char := Char.ofNat 0xFFFD

/-- Continuation-byte test. -/
def contOk (b : Nat) : Bool := 0x80 ≤ b && b ≤ 0xBF

/-- Fuel-driven UTF-8 decoder with U+FFFD substitution for invalid bytes
(model of `String::from_utf8_lossy`; on invalid sequences it substitutes one
replacement character per offending lead byte, which no theorem below
observes since all exercised inputs are valid UTF-8). -/
def utf8LossyAux : Nat → List Nat → List Char
  | 0, _ => []
  | _, [] => []
  | fuel + 1, b :: rest =>
    if b ≤ 0x7F then Char.ofNat b :: utf8LossyAux fuel rest
    else if 0xC2 ≤ b && b ≤ 0xDF then
      match rest with
      | b2 :: rest2 =>
        if contOk b2 then
          Char.ofNat ((b - 0xC0) * 64 + (b2 - 0x80)) :: utf8LossyAux fuel rest2
        else replacementChar :: utf8LossyAux fuel rest
      | [] => [replacementChar]
    else if 0xE0 ≤ b && b ≤ 0xEF then
      match rest with
      | b2 :: b3 :: rest3 =>
        let lowOk :=
          if b = 0xE0 then 0xA0 ≤ b2 && b2 ≤ 0xBF
          else if b = 0xED then 0x80 ≤ b2 && b2 ≤ 0x9F
          else contOk b2
        if lowOk && contOk b3 then
          Char.ofNat ((b - 0xE0) * 4096 + (b2 - 0x80) * 64 + (b3 - 0x80))
            :: utf8LossyAux fuel rest3
        else replacementChar :: utf8LossyAux fuel rest
      | _ => [replacementChar]
    else if 0xF0 ≤ b && b ≤ 0xF4 then
      match rest with
      | b2 :: b3 :: b4 :: rest4 =>
        let lowOk :=
          if b = 0xF0 then 0x90 ≤ b2 && b2 ≤ 0xBF
          else if b = 0xF4 then 0x80 ≤ b2 && b2 ≤ 0x8F
          else contOk b2
        if lowOk && contOk b3 && contOk b4 then
          Char.ofNat ((b - 0xF0) * 262144 + (b2 - 0x80) * 4096
              + (b3 - 0x80) * 64 + (b4 - 0x80))
            :: utf8LossyAux fuel rest4
        else replacementChar :: utf8LossyAux fuel rest
      | _ => [replacementChar]
    else replacementChar :: utf8LossyAux fuel rest

/-- `String::from_utf8_lossy` on a byte list. -/
def utf8Lossy (bs : List Nat) : String := (utf8LossyAux bs.length bs).asString

/-- Hex value of one ASCII byte. -/
def hexDigitVal (b : Nat) : Option Nat :=
  if 48 ≤ b && b ≤ 57 then some (b - 48)
  else if 65 ≤ b && b ≤ 70 then some (b - 55)
  else if 97 ≤ b && b ≤ 102 then some (b - 87)
  else none

/-- Fuel-driven percent-decoding on bytes; invalid escapes stay literal
(as in the `percent_encoding` crate). -/
def percentDecodeAux : Nat → List Nat → List Nat
  | 0, bs => bs
  | _, [] => []
  | fuel + 1, b :: rest =>
    if b = 37 then
      match rest with
      | h1 :: h2 :: rest2 =>
        match hexDigitVal h1, hexDigitVal h2 with
        | some v1, some v2 => (v1 * 16 + v2) :: percentDecodeAux fuel rest2
        | _, _ => b :: percentDecodeAux fuel rest
      | _ => b :: percentDecodeAux fuel rest
    else b :: percentDecodeAux fuel rest

/-- Percent-decoding of a byte list. -/
def percentDecodeBytes (bs : List Nat) : List Nat := percentDecodeAux bs.length bs

/-- `percent_decode_str(s).decode_utf8_lossy()`. -/
def percentDecodeStrLossy (s : String) : String :=
  utf8Lossy (percentDecodeBytes (strUtf8 s))

/-- One `form_urlencoded` component: `+` means space, then percent-decode,
then lossy UTF-8. -/
def formDecodeComponent (bs : List Nat) : String :=
  utf8Lossy (percentDecodeBytes (bs.map (fun b => if b = 43 then 32 else b)))

/-- Model of `form_urlencoded` query parsing (used by both
`serde_urlencoded::from_str` and `Url::query_pairs`): split on `&`, skip
empty pieces, split each piece at the first `=` (missing value is empty),
decode both components.  Deserialisation into a string map never fails, so
this is total. -/
def parseQueryPairs (q : String) : List (String × String) :=
  ((splitSep 38 (strUtf8 q)).filter (fun piece => ¬piece.isEmpty)).map
    (fun piece =>
      let kv := splitAtFirst 61 piece
      (formDecodeComponent kv.1, formDecodeComponent (kv.2.getD [])))

/-- `HashMap::get` over collected query pairs (later duplicates overwrite
earlier ones). -/
def queryGet (pairs : List (String × String)) (k : String) : Option String :=
  ((pairs.filter (fun kv => kv.1 = k)).getLast?).map (·.2)

/-- The slice of the `url::Url` interface the link decoders read.
`Url::parse` itself is an external crate; a `Url` value is an
already-parsed link. -/
structure Url where
  scheme : String
  username : String
  password : Option String
  host : Option String
  port : Option Nat
  query : Option String
  fragment : Option String
deriving DecidableEq, Repr

end Ringer

namespace Ringer

/-! ## `SsrNode::from_url` (`src/node/ssr.rs`) -/

/-- The part of `SsrNode::from_url` that runs after the host blob has been
base64-decoded and lossily UTF-8 decoded, starting from the `"/?"` split:
`part1_parts` is the `':'`-split of the part before `"/?"`, `ssr_url_part2`
the query text after it.  Rust's tuple construction indexes
`part1_parts[0]`..`[5]` without a length check, so a short body panics
(out-of-bounds indexing), and the query accessors use `unwrap()` on base64
decoding and on the `udpport`/`uot` integer parses, so those failure modes
panic as well. -/
def ssrParseParts (part1_parts : List (List Char))
    (ssr_url_part2 : Option (List Char)) : PResult SsrNode :=
  match part1_parts[0]? with
  | none => .panicked "index out of bounds"
  | some server_cs =>
  match part1_parts[1]? with
  | none => .panicked "index out of bounds"
  | some port_cs =>
  match parseUnsigned u16Max port_cs with
  | none => .error "failed to parse server port"
  | some server_port =>
  match part1_parts[2]? with
  | none => .panicked "index out of bounds"
  | some protocol_cs =>
  match part1_parts[3]? with
  | none => .panicked "index out of bounds"
  | some method_cs =>
  match part1_parts[4]? with
  | none => .panicked "index out of bounds"
  | some obfs_cs =>
  match part1_parts[5]? with
  | none => .panicked "index out of bounds"
  | some password_b64 =>
  match base64UrlNoPadDecode password_b64.asString with
  | none => .error "failed to decode base64 for the password"
  | some password_bytes =>
  let password := utf8Lossy password_bytes
  let tailFields : PResult (Option String × Option String × Option String
      × Option Nat × Option Bool) :=
    match ssr_url_part2 with
    | some part2_cs =>
      let query := parseQueryPairs part2_cs.asString
      let decodeB64Param : Option String → PResult (Option String) :=
        fun param =>
          match param with
          | some base64param =>
            match base64UrlNoPadDecode base64param with
            | none => .panicked "called Result::unwrap on an Err value"
            | some bs =>
              let value := utf8Lossy bs
              .ok (if value.isEmpty then none else some value)
          | none => .ok none
      (decodeB64Param (queryGet query "remarks")).bind fun remarks =>
      (decodeB64Param (queryGet query "obfsparam")).bind fun obfs_param =>
      (decodeB64Param (queryGet query "protoparam")).bind fun protocol_param =>
      (match queryGet query "udpport" with
       | some udpport_string =>
         match parseUnsigned u16Max udpport_string.data with
         | none => PResult.panicked "called Result::unwrap on an Err value"
         | some v => .ok (some v)
       | none => .ok none).bind fun udpport =>
      (match queryGet query "uot" with
       | some uot_string =>
         match parseUnsigned u8Max uot_string.data with
         | none => PResult.panicked "called Result::unwrap on an Err value"
         | some v => .ok (some (v != 0))
       | none => .ok none).bind fun uot =>
      .ok (remarks, obfs_param, protocol_param, udpport, uot)
    | none => .ok (none, none, none, none, none)
  tailFields.bind fun fields =>
  .ok { remarks := fields.1
        server := server_cs.asString
        server_port := server_port
        password := password
        method := method_cs.asString
        protocol := protocol_cs.asString
        protocol_param := fields.2.2.1
        obfs := obfs_cs.asString
        obfs_param := fields.2.1
        udpport := fields.2.2.2.1
        uot := fields.2.2.2.2 }

/-- Processing of the decoded host blob: split once on the literal `"/?"`
(second piece, if any, is the query), then `':'`-split the first piece. -/
def ssrParseDecodedHost (decoded_host : String) : PResult SsrNode :=
  let ssr_url_parts := splitSubstringL "/?".data decoded_host.data
  ssrParseParts (splitSep ':' (ssr_url_parts.headD [])) ssr_url_parts[1]?

/-- `SsrNode::from_url` of `src/node/ssr.rs`. -/
def SsrNode.from_url (url : Url) : PResult SsrNode :=
  match url.host with
  | some encoded_content =>
    match base64UrlNoPadDecode encoded_content with
    | none => .error "failed to decode base64 for the SSR link"
    | some decoded_host_bytes => ssrParseDecodedHost (utf8Lossy decoded_host_bytes)
  | none => .error "empty host for the link"

end Ringer

namespace Ringer

/-! ## Claim C3: SSR decode failure modes -/

/-- An `ssr://` link whose host blob (`"YWJj"`) decodes to `"abc"`: the body
has a single colon-field. -/
def ssrShortBodyUrl : Url :=
  { scheme := "ssr", username := "", password := none,
    host := some "YWJj", port := none, query := none, fragment := none }

/-- An `ssr://` link whose host blob decodes to
`"a:1:b:c:d:YQ/?udpport=x"`: a well-formed six-field body whose `udpport`
query value is not an integer. -/
def ssrBadUdpportUrl : Url :=
  { scheme := "ssr", username := "", password := none,
    host := some "YToxOmI6YzpkOllRLz91ZHBwb3J0PXg", port := none, query := none,
    fragment := none }

/-- The `parse_ssr_link` unit-test vector of `src/node/ssr.rs`. -/
def ssrRepoTestUrl : Url :=
  { scheme := "ssr", username := "", password := none,
    host := some "MTI3LjAuMC4xOjEyMzQ6YXV0aF9hZXMxMjhfbWQ1OmFlcy0xMjgtY2ZiOnRsczEuMl90aWNrZXRfYXV0aDpZV0ZoWW1KaS8_b2Jmc3BhcmFtPVluSmxZV3QzWVRFeExtMXZaUSZyZW1hcmtzPTVyV0w2Sy1WNUxpdDVwYUg",
    port := none, query := none, fragment := none }

set_option maxRecDepth 10000 in
/-- Validation of the embedding: the decoder model reproduces the
`parse_ssr_link` unit test of `src/node/ssr.rs` exactly (including the
base64 and UTF-8 handling of the non-ASCII remarks). -/
theorem ssr_from_url_repo_test_vector :
    SsrNode.from_url ssrRepoTestUrl
      = .ok { remarks := some "测试中文", server := "127.0.0.1",
              server_port := 1234, password := "aaabbb",
              method := "aes-128-cfb", protocol := "auth_aes128_md5",
              protocol_param := none, obfs := "tls1.2_ticket_auth",
              obfs_param := some "breakwa11.moe", udpport := none,
              uot := none } := by rfl

/-- A one-field body panics at the indexing of `part1_parts[1]`. -/
theorem ssrParseParts_singleton (p : List Char) (part2 : Option (List Char)) :
    ssrParseParts [p] part2 = .panicked "index out of bounds" := rfl

/-- Claim C3 (status: code_bug).  The claim says `SsrNode::from_url` never
panics and reports a descriptive decode error when the colon-split body has
fewer than six fields (and for the other failure modes, including a
non-integer `udpport`).  In the code, the tuple construction indexes
`part1_parts[0]`..`[5]` without any length check and the query accessors
call `unwrap()`, so those failure modes panic instead: every blob whose body
has no colon at all panics at `part1_parts[1]`, the concrete link
`ssrShortBodyUrl` (blob `"abc"`) panics, and the concrete link
`ssrBadUdpportUrl` (`udpport=x`) panics inside `unwrap()`. -/
theorem ssr_short_body_panics :
    (∀ decoded_host : String,
        (splitSep ':' ((splitSubstringL "/?".data decoded_host.data).headD [])).length = 1 →
        ssrParseDecodedHost decoded_host = .panicked "index out of bounds")
    ∧ SsrNode.from_url ssrShortBodyUrl = .panicked "index out of bounds"
    ∧ SsrNode.from_url ssrBadUdpportUrl
        = .panicked "called Result::unwrap on an Err value" := by
  refine ⟨?_, by rfl, by rfl⟩
  intro decoded_host hlen
  obtain ⟨p, hp⟩ := List.length_eq_one.mp hlen
  show ssrParseParts
      (splitSep ':' ((splitSubstringL "/?".data decoded_host.data).headD []))
      (splitSubstringL "/?".data decoded_host.data)[1]?
    = PResult.panicked "index out of bounds"
  rw [hp]
  exact ssrParseParts_singleton p _

/-- Witness for claim C3: the general no-colon-body conjunct applied at the
concrete blob `"abc"`. -/
theorem ssr_short_body_panics_witness :
    (splitSep ':' ((splitSubstringL "/?".data "abc".data).headD [])).length = 1
    ∧ ssrParseDecodedHost "abc" = .panicked "index out of bounds" :=
  ⟨by rfl, ssr_short_body_panics.1 "abc" (by rfl)⟩

end Ringer

namespace Ringer

/-! ## `SsNode::from_url` (`src/node/ss.rs`) -/

namespace Ss

/-- `parse_obfs_plugin_args` of `src/node/ss.rs`. -/
def parse_obfs_plugin_args (plugin_opts : List (String × String)) :
    Except String ObfsOpts :=
  let host := (plugin_opts.lookup "obfs-host").map (fun value => value)
  let uri := (plugin_opts.lookup "obfs-uri").map (fun value => value)
  match plugin_opts.lookup "obfs" with
  | some obfs =>
    if obfs = "http" then .ok { obfs := some .http, host := host, uri := uri }
    else if obfs = "tls" then .ok { obfs := some .tls, host := host, uri := uri }
    else .error s!"Unknown obfs: `{obfs}`"
  | none => .ok { obfs := none, host := host, uri := uri }

/-- `Plugin::from_name_and_opts` of `src/node/ss.rs`. -/
def Plugin.from_name_and_opts (name : String) (opts : List (String × String)) :
    Except String Plugin :=
  if name = "obfs" || name = "simple-obfs" || name = "obfs-local" then
    match parse_obfs_plugin_args opts with
    | .ok obfs_opts => .ok (.simpleObfs obfs_opts)
    | .error e => .error s!"failed to parse obfs_opts: {e}"
  else if name = "gq" || name = "gq-client" || name = "go-quiet" then .ok .goQuiet
  else if name = "ck" || name = "ck-client" || name = "cloak" then .ok .cloak
  else if name = "kcptun" then .ok .kcptun
  else if name = "v2ray" || name = "v2ray-plugin" then .ok .v2ray
  else .ok (.unknown name (if opts.isEmpty then none else some opts))

end Ss

/-- Ordered insertion with key replacement (`BTreeMap::insert`). -/
def btreeInsert : List (String × String) → String → String → List (String × String)
  | [], k, v => [(k, v)]
  | (k', v') :: rest, k, v =>
    if k < k' then (k, v) :: (k', v') :: rest
    else if k = k' then (k, v) :: rest
    else (k', v') :: btreeInsert rest k v

/-- `collect::<BTreeMap<String, String>>()` over key/value pairs. -/
def btreeFromPairs (l : List (String × String)) : List (String × String) :=
  l.foldl (fun m kv => btreeInsert m kv.1 kv.2) []

/-- `SsNode::from_url` of `src/node/ss.rs` (never panics; all failure modes
return descriptive errors). -/
def Ss.SsNode.from_url (url : Url) : PResult Ss.SsNode :=
  match url.host with
  | none => .error "SS link does not contain server"
  | some server =>
  match url.port with
  | none => .error "SS link does not contain port"
  | some server_port =>
  let methodPassword : PResult (Ss.Method × String) :=
    match url.password with
    | some password =>
      let method_str := percentDecodeStrLossy url.username
      match Ss.Method.from_alias method_str with
      | none => .error s!"Unknown method `{method_str}` in SS link"
      | some method => .ok (method, percentDecodeStrLossy password)
    | none =>
      match base64UrlNoPadDecode url.username with
      | none => .error "failed to decode base64 for userinfo"
      | some decoded_userinfo_bytes =>
        let decoded_userinfo := utf8Lossy decoded_userinfo_bytes
        let ss_userinfo_parts := splitSep ':' decoded_userinfo.data
        match ss_userinfo_parts[0]? with
        | none => .error "SS link does not contain method"
        | some method_cs =>
        match ss_userinfo_parts[1]? with
        | none => .error "SS link does not contain password"
        | some password_cs =>
        match Ss.Method.from_alias method_cs.asString with
        | none => .error s!"Unknown method `{method_cs.asString}` in SS link"
        | some method => .ok (method, password_cs.asString)
  methodPassword.bind fun mp =>
  let query_pairs := parseQueryPairs (url.query.getD "")
  let pluginRes : PResult (Option Ss.Plugin) :=
    match query_pairs.find? (fun kv => kv.1 = "plugin") with
    | some kv =>
      let plugin_arg_parts := splitSep ';' kv.2.data
      match plugin_arg_parts[0]? with
      | none => .error "SS link does not contain plugin"
      | some plugin_cs =>
        let plugin_opts := btreeFromPairs ((plugin_arg_parts.drop 1).map
          (fun plugin_arg_str =>
            let ps := splitSep '=' plugin_arg_str
            ((ps.headD []).asString, ((ps[1]?).getD []).asString)))
        match Ss.Plugin.from_name_and_opts plugin_cs.asString plugin_opts with
        | .ok plugin => .ok (some plugin)
        | .error e => .error s!"failed to parse SS plugin: {e}"
    | none => .ok none
  pluginRes.bind fun plugin =>
  let remarks := url.fragment.map percentDecodeStrLossy
  .ok { id := none, remarks := remarks, server := server,
        server_port := server_port, password := mp.2, method := mp.1,
        udp := none, udp_over_tcp := none, plugin := plugin }

/-- The `parse_ss_link_with_encoded_userinfo` unit-test link of
`src/node/ss.rs` (base64 userinfo, no plugin). -/
def ssRepoTestUrl1 : Url :=
  { scheme := "ss", username := "YWVzLTEyOC1nY206dGVzdA", password := none,
    host := some "192.168.100.1", port := some 8888, query := none,
    fragment := some "Example1" }

/-- The same test's second link (base64 userinfo plus percent-encoded
`plugin` query). -/
def ssRepoTestUrl2 : Url :=
  { scheme := "ss", username := "cmM0LW1kNTpwYXNzd2Q", password := none,
    host := some "192.168.100.1", port := some 8888,
    query := some "plugin=obfs-local%3Bobfs%3Dhttp",
    fragment := some "Example2" }

set_option maxRecDepth 4000 in
/-- Validation of the embedding: the SS decoder model reproduces the
`parse_ss_link_with_encoded_userinfo` unit test of `src/node/ss.rs`. -/
theorem ss_from_url_repo_test_vectors :
    Ss.SsNode.from_url ssRepoTestUrl1
      = .ok { id := none, remarks := some "Example1", server := "192.168.100.1",
              server_port := 8888, password := "test", method := .aeadAes128Gcm,
              udp := none, udp_over_tcp := none, plugin := none }
    ∧ Ss.SsNode.from_url ssRepoTestUrl2
      = .ok { id := none, remarks := some "Example2", server := "192.168.100.1",
              server_port := 8888, password := "passwd", method := .rc4Md5,
              udp := none, udp_over_tcp := none,
              plugin := some (.simpleObfs { obfs := some .http, host := none,
                                            uri := none }) } := by
  exact ⟨rfl, rfl⟩

end Ringer

namespace Ringer

/-! ## Provider decoding (`src/provider/ssr.rs`, `src/provider/clash.rs`)
and claim C9 -/

/-- The per-link decode of `Ssr::parse_nodes_from_content`: dispatch on the
scheme, decode, then apply the provider's override options. -/
def ssrProviderDecodeLink (options : CommonProviderOptions) (link : Url) :
    PResult Node :=
  if link.scheme = "ss" then
    (Ss.SsNode.from_url link).bind fun ss_node =>
      let ss_node := match options.ss_udp with
        | some ss_udp => { ss_node with udp := some ss_udp }
        | none => ss_node
      let ss_node := match options.ss_udp_over_tcp with
        | some ss_uot => { ss_node with udp_over_tcp := some ss_uot }
        | none => ss_node
      .ok (.ss ss_node)
  else if link.scheme = "ssr" then
    (SsrNode.from_url link).bind fun ssr_node =>
      let ssr_node := match options.ssr_udpport with
        | some ssr_udpport => { ssr_node with udpport := some ssr_udpport }
        | none => ssr_node
      let ssr_node := match options.ssr_uot with
        | some ssr_uot => { ssr_node with uot := some ssr_uot }
        | none => ssr_node
      .ok (.ssr ssr_node)
  else .error "Unknown scheme"

/-- `collect::<Result<Vec<_>>>()` over panic-aware per-link results: the
first non-`Ok` outcome (in line order) decides the whole decode. -/
def collectPResults {α : Type} : List (PResult α) → PResult (List α)
  | [] => .ok []
  | r :: rs =>
    r.bind fun a => (collectPResults rs).bind fun tail => .ok (a :: tail)

/-- `Ssr::parse_nodes_from_content` after the subscription body has been
base64-decoded, split into lines, and the lines URL-parsed (lines that fail
URL parsing are dropped by the source's `filter_map(.. .ok())` before this
point): decode every link and collect. -/
def ssrProviderParseLinks (options : CommonProviderOptions) (links : List Url) :
    PResult (List Node) :=
  collectPResults (links.map (ssrProviderDecodeLink options))

/-- The `ClashProxy` shape destructured by `Clash::parse_nodes_from_content`
in `src/provider/clash.rs` (`plugin` is a raw plugin name, `plugin_opts` a
string map). -/
inductive ClashSubProxy where
  | ss (name : String) (server : String) (port : Nat) (cipher : String)
      (password : String) (udp : Option Bool) (plugin : Option String)
      (plugin_opts : Option (List (String × String)))
  | ssr (name : String) (server : String) (port : Nat) (cipher : String)
      (password : String) (obfs : String) (obfs_param : Option String)
      (protocol : String) (protocol_param : Option String) (udp : Option Bool)
deriving DecidableEq, Repr

/-- `enum ImplementedProxyNodeOrUnknownProxyNode` of `src/provider/clash.rs`
(the unknown side's raw YAML value is irrelevant here). -/
inductive ImplementedOrUnknown where
  | implemented (proxy : ClashSubProxy)
  | unknown
deriving DecidableEq, Repr

/-- `Clash::parse_nodes_from_content` after the YAML has been deserialised
into its proxy list: unknown proxies are skipped, an Ss proxy whose cipher
fails `Method::from_alias` is skipped (the `?` inside `filter_map`), an Ss
proxy whose plugin fails to parse is skipped with a warning, and everything
that remains becomes a node.  The whole computation always returns `Ok`. -/
def clashParseNodesFromProxies (proxies : List ImplementedOrUnknown) :
    Except String (List Node) :=
  .ok ((proxies.filterMap (fun ipnoupn =>
      match ipnoupn with
      | .implemented clash_proxy => some clash_proxy
      | .unknown => none)).filterMap (fun proxy =>
      match proxy with
      | .ss name server port cipher password udp plugin_name plugin_opts =>
        match Ss.Method.from_alias cipher with
        | none => none
        | some method =>
          match plugin_name with
          | some pname =>
            match Ss.Plugin.from_name_and_opts pname (plugin_opts.getD []) with
            | .ok plugin =>
              some (Node.ss { id := none, remarks := some name,
                              server := server, server_port := port,
                              password := password, method := method,
                              udp := udp, udp_over_tcp := none,
                              plugin := some plugin })
            | .error _ => none
          | none =>
            some (Node.ss { id := none, remarks := some name,
                            server := server, server_port := port,
                            password := password, method := method,
                            udp := udp, udp_over_tcp := none, plugin := none })
      | .ssr name server port cipher password obfs obfs_param protocol
          protocol_param _ =>
        some (Node.ssr { remarks := some name, server := server,
                         server_port := port, password := password,
                         method := cipher, protocol := protocol,
                         protocol_param := protocol_param, obfs := obfs,
                         obfs_param := obfs_param, udpport := none,
                         uot := none })))

/-- Counterexample to claim C9 as stated: a Clash subscription containing a
single Shadowsocks proxy whose cipher string is unknown (so the entry fails
to decode) still returns `Ok` — with the entry silently dropped — instead of
an error. -/
theorem clash_provider_silently_skips_bad_cipher :
    Ss.Method.from_alias "super-cipher" = none
    ∧ clashParseNodesFromProxies
        [.implemented (.ss "n" "s.example.com" 1 "super-cipher" "pw" none none none)]
      = .ok ([] : List Node) :=
  ⟨rfl, rfl⟩

/-- Claim C9, amended (status: corrected).  For the SSR provider, if any
line that parses as a URL fails to decode (and no line panics), the whole
provider decode returns an error and no node list; the Clash provider, in
contrast, never fails after YAML deserialisation — it silently skips proxy
entries it cannot decode, producing a partial list. -/
theorem provider_decode_error_propagation (options : CommonProviderOptions)
    (links : List Url) :
    ((∀ l ∈ links, ∀ m, ssrProviderDecodeLink options l ≠ .panicked m) →
      (∃ l ∈ links, ∃ m, ssrProviderDecodeLink options l = .error m) →
      ∃ m, ssrProviderParseLinks options links = .error m)
    ∧ (∀ proxies : List ImplementedOrUnknown,
        ∃ ns, clashParseNodesFromProxies proxies = .ok ns) := by
  constructor
  · induction links with
    | nil =>
      rintro _ ⟨l, hl, _⟩
      cases hl
    | cons hd tl ih =>
      intro hnp hex
      cases hhd : ssrProviderDecodeLink options hd with
      | error m =>
        refine ⟨m, ?_⟩
        show collectPResults ((hd :: tl).map (ssrProviderDecodeLink options))
          = .error m
        simp only [List.map_cons, collectPResults, hhd, PResult.bind]
      | panicked m =>
        exact absurd hhd (hnp hd (List.mem_cons_self hd tl) m)
      | ok a =>
        obtain ⟨l, hl, m, hm⟩ := hex
        rcases List.mem_cons.mp hl with rfl | hl'
        · rw [hhd] at hm
          cases hm
        · obtain ⟨m', hm'⟩ := ih
            (fun l hl m => hnp l (List.mem_cons_of_mem hd hl) m)
            ⟨l, hl', m, hm⟩
          refine ⟨m', ?_⟩
          show collectPResults ((hd :: tl).map (ssrProviderDecodeLink options))
            = .error m'
          have hm'' : collectPResults (tl.map (ssrProviderDecodeLink options))
              = .error m' := hm'
          simp only [List.map_cons, collectPResults, hhd, PResult.bind, hm'']
  · intro proxies
    exact ⟨_, rfl⟩

/-- Provider options with no overrides. -/
def defaultProviderOptions : CommonProviderOptions :=
  { ss_udp := none, ss_udp_over_tcp := none, ssr_udpport := none,
    ssr_uot := none }

/-- An URL-parsable line with a scheme the SSR provider does not know. -/
def httpLinkUrl : Url :=
  { scheme := "http", username := "", password := none,
    host := some "example.com", port := none, query := none, fragment := none }

/-- Witness for the amended claim C9: a provider body containing one
unknown-scheme link decodes to an error at a concrete input. -/
theorem provider_decode_error_propagation_witness :
    ssrProviderDecodeLink defaultProviderOptions httpLinkUrl = .error "Unknown scheme"
    ∧ ∃ m, ssrProviderParseLinks defaultProviderOptions [httpLinkUrl] = .error m :=
  ⟨rfl,
   (provider_decode_error_propagation defaultProviderOptions [httpLinkUrl]).1
     (fun l hl m h => by
       rw [List.mem_singleton] at hl
       subst hl
       exact PResult.noConfusion
         (show PResult.error "Unknown scheme" = PResult.panicked m from h))
     ⟨httpLinkUrl, List.mem_singleton.mpr rfl, "Unknown scheme", rfl⟩⟩

end Ringer

namespace Ringer

/-! ## Template rendering pipeline (`RenderEngine::render`,
`src/template/mod.rs`) and claim C5.

The queue loop is embedded as a step function over an explicit state (the
pending queue, the shared `output` registry held in the evaluation context,
and the log of file writes), driven with fuel because the loop has a known
liveness gap (unsatisfiable `requires` cycle forever).  The Tera engine is
opaque: rendering is a parameter mapping a template and the current registry
to text or an error. -/

/-- `struct Template` of `src/template/mod.rs`. -/
structure Template where
  name : Option String
  file_name : String
  template : String
  requires : List String
  output_sub_directories : List String
deriving DecidableEq, Repr

/-- The opaque templating engine (`Tera::render` / `Tera::render_str`
against the shared context, whose only pipeline-written entry is the
`output` registry). -/
def RenderFn : Type := Template → List (String × String) → Except String String

/-- Insert-or-replace into the JSON `output` object
(`serde_json::Map::insert`). -/
def insertOutput (m : List (String × String)) (k v : String) :
    List (String × String) :=
  match m with
  | [] => [(k, v)]
  | (k', v') :: rest =>
    if k' = k then (k, v) :: rest else (k', v') :: insertOutput rest k v

/-- Loop state: pending queue, `output` registry, and write log (output
sub-directories, file name, rendered text). -/
structure RenderState where
  queue : List Template
  output : List (String × String)
  writes : List (List String × String × String)
deriving DecidableEq, Repr

/-- Loop events: a template pushed back because a required name was absent,
or a template rendered (recording the registry visible at render time). -/
inductive RenderEvent where
  | requeued (t : Template)
  | rendered (t : Template) (registry : List (String × String))
deriving DecidableEq, Repr

/-- Outcome of one loop iteration. -/
inductive StepResult where
  | next (s : RenderState) (ev : RenderEvent)
  | failed (t : Template) (e : String)
  | done

/-- One iteration of the `while let Some(template) = templates.pop_front()`
loop of `RenderEngine::render`: pop the front template; if it declares
`requires` and some required name is absent from the `output` registry, push
it to the tail unrendered; otherwise render it (aborting on failure with the
template identified), insert the output under the template's name when it
has one, and append the file write. -/
def renderStep (rf : RenderFn) (s : RenderState) : StepResult :=
  match s.queue with
  | [] => .done
  | template :: rest =>
    if !template.requires.isEmpty
        && !(template.requires.all (fun n => (s.output.lookup n).isSome)) then
      .next { queue := rest ++ [template], output := s.output, writes := s.writes }
        (.requeued template)
    else
      match rf template s.output with
      | .error e => .failed template e
      | .ok out =>
        let output' := match template.name with
          | some template_name => insertOutput s.output template_name out
          | none => s.output
        .next { queue := rest, output := output',
                writes := s.writes
                  ++ [(template.output_sub_directories, template.file_name, out)] }
          (.rendered template s.output)

/-- Result of running the loop with a given amount of fuel, together with
the event trace. -/
inductive RenderResult where
  | ok (s : RenderState) (trace : List RenderEvent)
  | failed (t : Template) (e : String) (trace : List RenderEvent)
  | outOfFuel (s : RenderState) (trace : List RenderEvent)

/-- The event trace of a loop run. -/
def RenderResult.trace : RenderResult → List RenderEvent
  | .ok _ tr => tr
  | .failed _ _ tr => tr
  | .outOfFuel _ tr => tr

/-- Prepend an event to a run's trace. -/
def RenderResult.consTrace (r : RenderResult) (ev : RenderEvent) : RenderResult :=
  match r with
  | .ok s tr => .ok s (ev :: tr)
  | .failed t e tr => .failed t e (ev :: tr)
  | .outOfFuel s tr => .outOfFuel s (ev :: tr)

/-- The fuel-driven queue loop. -/
def renderLoop (rf : RenderFn) : Nat → RenderState → RenderResult
  | 0, s => .outOfFuel s []
  | fuel + 1, s =>
    match renderStep rf s with
    | .done => .ok s []
    | .failed t e => .failed t e []
    | .next s' ev => (renderLoop rf fuel s').consTrace ev

/-- Prepending an event prepends it to the trace. -/
theorem renderResult_trace_consTrace (r : RenderResult) (ev : RenderEvent) :
    (r.consTrace ev).trace = ev :: r.trace := by
  cases r <;> rfl

/-- A step that emits a `rendered` event rendered against registry `reg`
did so with `reg` being the state's registry, with every required name
present in it. -/
theorem renderStep_rendered_requires (rf : RenderFn) (s : RenderState)
    (s' : RenderState) (t : Template) (reg : List (String × String))
    (h : renderStep rf s = .next s' (.rendered t reg)) :
    reg = s.output ∧ ∀ n ∈ t.requires, (reg.lookup n).isSome = true := by
  unfold renderStep at h
  split at h
  · cases h
  · rename_i template rest hq
    split at h
    · cases h
    · rename_i hcond
      split at h
      · cases h
      · rename_i out hrf
        injection h with h1 h2
        injection h2 with h3 h4
        subst h3
        subst h4
        refine ⟨rfl, fun n hn => ?_⟩
        have hb : (!template.requires.isEmpty
            && !(template.requires.all (fun n => (s.output.lookup n).isSome)))
            = false := eq_false_of_ne_true hcond
        cases hall : template.requires.all (fun n => (s.output.lookup n).isSome) with
        | true => exact List.all_eq_true.mp hall n hn
        | false =>
          have hemp : template.requires.isEmpty = true := by
            cases hemp : template.requires.isEmpty with
            | true => rfl
            | false => rw [hemp, hall] at hb; cases hb
          have hnil : template.requires = [] := by
            cases hreqv : template.requires with
            | nil => rfl
            | cons a b => rw [hreqv] at hemp; simp at hemp
          rw [hnil] at hn
          cases hn

/-- Claim C5 (status: confirmed).  In the queue loop: (1) a template that
declares required names, one of which is absent from the `output` registry,
is pushed back to the tail of the queue unrendered — the registry and the
write log are untouched and processing continues with the next template;
(2) when all required names are present and the engine fails on the
template, the whole pipeline aborts with a failure identifying that
template; (3) in every loop run, every `rendered` event happened against a
registry containing all of the template's required names — a template is
rendered only once its requirements are present. -/
theorem render_queue_dependency_gate (rf : RenderFn) :
    (∀ (template : Template) (rest : List Template)
        (outR : List (String × String)) (wr : List (List String × String × String)),
      template.requires ≠ [] →
      (∃ n ∈ template.requires, outR.lookup n = none) →
      renderStep rf ⟨template :: rest, outR, wr⟩
        = .next ⟨rest ++ [template], outR, wr⟩ (.requeued template))
    ∧ (∀ (fuel : Nat) (template : Template) (rest : List Template)
        (outR : List (String × String)) (wr : List (List String × String × String))
        (e : String),
        (∀ n ∈ template.requires, (outR.lookup n).isSome = true) →
        rf template outR = .error e →
        renderLoop rf (fuel + 1) ⟨template :: rest, outR, wr⟩
          = .failed template e [])
    ∧ (∀ fuel s₀ template reg,
        RenderEvent.rendered template reg ∈ (renderLoop rf fuel s₀).trace →
        ∀ n ∈ template.requires, (reg.lookup n).isSome = true) := by
  refine ⟨?_, ?_, ?_⟩
  · intro template rest outR wr hreq hmiss
    have hcond : (!template.requires.isEmpty
        && !(template.requires.all (fun n => (outR.lookup n).isSome))) = true := by
      obtain ⟨n, hn, hnone⟩ := hmiss
      have h1 : template.requires.isEmpty = false := by
        cases hreqv : template.requires with
        | nil => exact absurd hreqv hreq
        | cons a b => rfl
      have h2 : template.requires.all (fun n => (outR.lookup n).isSome) = false := by
        cases hv : template.requires.all (fun n => (outR.lookup n).isSome) with
        | false => rfl
        | true =>
          have := List.all_eq_true.mp hv n hn
          rw [hnone] at this
          cases this
      rw [h1, h2]
      rfl
    have hstep : renderStep rf ⟨template :: rest, outR, wr⟩
        = if (!template.requires.isEmpty
            && !(template.requires.all (fun n => (outR.lookup n).isSome))) then
            .next ⟨rest ++ [template], outR, wr⟩ (.requeued template)
          else
            match rf template outR with
            | .error e => .failed template e
            | .ok out =>
              .next ⟨rest,
                     match template.name with
                     | some template_name => insertOutput outR template_name out
                     | none => outR,
                     wr ++ [(template.output_sub_directories, template.file_name,
                             out)]⟩
                (.rendered template outR) := rfl
    rw [hstep, if_pos hcond]
  · intro fuel template rest outR wr e hall hrf
    have hcond : (!template.requires.isEmpty
        && !(template.requires.all (fun n => (outR.lookup n).isSome))) = false := by
      have h2 : template.requires.all (fun n => (outR.lookup n).isSome) = true :=
        List.all_eq_true.mpr hall
      rw [h2]
      simp
    have hstep : renderStep rf ⟨template :: rest, outR, wr⟩ = .failed template e := by
      have hstep0 : renderStep rf ⟨template :: rest, outR, wr⟩
          = if (!template.requires.isEmpty
              && !(template.requires.all (fun n => (outR.lookup n).isSome))) then
              .next ⟨rest ++ [template], outR, wr⟩ (.requeued template)
            else
              match rf template outR with
              | .error e => .failed template e
              | .ok out =>
                .next ⟨rest,
                       match template.name with
                       | some template_name => insertOutput outR template_name out
                       | none => outR,
                       wr ++ [(template.output_sub_directories, template.file_name,
                               out)]⟩
                  (.rendered template outR) := rfl
      rw [hstep0, if_neg (by rw [hcond]; exact Bool.false_ne_true), hrf]
    have hloop : renderLoop rf (fuel + 1) ⟨template :: rest, outR, wr⟩
        = match renderStep rf ⟨template :: rest, outR, wr⟩ with
          | .done => .ok ⟨template :: rest, outR, wr⟩ []
          | .failed t e => .failed t e []
          | .next s' ev => (renderLoop rf fuel s').consTrace ev := rfl
    rw [hloop, hstep]
  · intro fuel
    induction fuel with
    | zero =>
      intro s₀ template reg hmem
      cases hmem
    | succ fuel ih =>
      intro s₀ template reg hmem
      have hloop : renderLoop rf (fuel + 1) s₀
          = match renderStep rf s₀ with
            | .done => .ok s₀ []
            | .failed t e => .failed t e []
            | .next s' ev => (renderLoop rf fuel s').consTrace ev := rfl
      rw [hloop] at hmem
      cases hstep : renderStep rf s₀ with
      | done => rw [hstep] at hmem; cases hmem
      | failed t e => rw [hstep] at hmem; cases hmem
      | next s' ev =>
        rw [hstep] at hmem
        rw [renderResult_trace_consTrace] at hmem
        rcases List.mem_cons.mp hmem with hev | htail
        · rw [← hev] at hstep
          exact (renderStep_rendered_requires rf s₀ s' template reg hstep).2
        · exact ih s' template reg htail

/-- A template requiring the not-yet-rendered name `"base"`. -/
def gateWitnessTemplate1 : Template :=
  { name := some "t1", file_name := "f1", template := "body",
    requires := ["base"], output_sub_directories := [] }

/-- A template with no requirements. -/
def gateWitnessTemplate0 : Template :=
  { name := none, file_name := "f0", template := "body", requires := [],
    output_sub_directories := [] }

/-- An engine that always renders. -/
def gateWitnessRenderOk : RenderFn := fun _ _ => .ok "rendered"

/-- An engine that always fails. -/
def gateWitnessRenderErr : RenderFn := fun _ _ => .error "boom"

/-- Witness for claim C5: the requeue conjunct and the failure-abort
conjunct evaluated at concrete templates, states and engines. -/
theorem render_queue_dependency_gate_witness :
    gateWitnessTemplate1.requires ≠ []
    ∧ (([] : List (String × String)).lookup "base" = none)
    ∧ renderStep gateWitnessRenderOk ⟨[gateWitnessTemplate1], [], []⟩
        = .next ⟨[] ++ [gateWitnessTemplate1], [], []⟩
            (.requeued gateWitnessTemplate1)
    ∧ renderLoop gateWitnessRenderErr 1 ⟨[gateWitnessTemplate0], [], []⟩
        = .failed gateWitnessTemplate0 "boom" [] :=
  ⟨by decide, rfl,
   (render_queue_dependency_gate gateWitnessRenderOk).1 gateWitnessTemplate1
     [] [] [] (by decide) ⟨"base", by decide, rfl⟩,
   (render_queue_dependency_gate gateWitnessRenderErr).2.1 0 gateWitnessTemplate0
     [] [] [] "boom" (fun n hn => absurd hn (List.not_mem_nil n)) rfl⟩

end Ringer